import Mathlib

/-!
# Error manager and application state machine

A shallow embedding of `src/common/error.c` and `src/app/app.c`.

* The file-scope singletons (`error_mgr`, `app_state`, `heartbeat_counter`)
  become explicit records that every operation receives and returns.
* `uint32_t` values are natural numbers; every arithmetic step that can leave
  the 32-bit range in C is reduced modulo `2 ^ 32` (`u32_inc`, `u32_dec`).
* The 32-slot array `log[ERROR_LOG_SIZE]` is a function on `Fin 32`.
-/

namespace EmbeddedPattern

/-! ## `src/common/error.h` -/

/-- Error codes (`error_t`). -/
inductive error_t where
  | ERR_OK
  | ERR_TIMEOUT
  | ERR_HW_FAILURE
  | ERR_INVALID_PARAM
  | ERR_NOT_INITIALIZED
  | ERR_BUSY
  | ERR_MEMORY
  | ERR_UNKNOWN
  deriving DecidableEq, Repr, Inhabited

/-- Error severity levels (`error_severity_t`). -/
inductive error_severity_t where
  | SEVERITY_INFO
  | SEVERITY_WARN
  | SEVERITY_ERROR
  | SEVERITY_FATAL
  deriving DecidableEq, Repr, Inhabited

open error_t error_severity_t

/-- Error log entry (`error_entry_t`). -/
structure error_entry_t where
  error_code : error_t
  severity : error_severity_t
  timestamp : Nat
  context : Nat
  deriving DecidableEq, Repr, Inhabited

/-! ## `src/common/error.c` -/

/-- Number of slots of the error log (`#define ERROR_LOG_SIZE 32`). -/
def ERROR_LOG_SIZE : Nat := 32

/-- Modulus of `uint32_t` arithmetic. -/
def U32_MOD : Nat := 4294967296

/-- The C expression `x + 1` (also `x++`) on a `uint32_t`. -/
def u32_inc (x : Nat) : Nat := (x + 1) % U32_MOD

/-- The C expression `x - 1` (also `x--`) on a `uint32_t`: `0 - 1` wraps to `2 ^ 32 - 1`. -/
def u32_dec (x : Nat) : Nat := (x + (U32_MOD - 1)) % U32_MOD

/-- The slot addressed by `v % ERROR_LOG_SIZE`. -/
def slot_of (v : Nat) : Fin 32 := ⟨v % 32, Nat.mod_lt v (by decide)⟩

/-- Error manager (`error_manager_t`): the slots, `count` and `last_index`. -/
structure error_manager_t where
  log : Fin 32 → error_entry_t
  count : Nat
  last_index : Nat

/-- The zero-initialised manager `static error_manager_t error_mgr = {0};`. -/
def error_mgr_zero : error_manager_t :=
  { log := fun _ => { error_code := ERR_OK, severity := SEVERITY_INFO, timestamp := 0, context := 0 },
    count := 0,
    last_index := 0 }

/-- Embeds `error_init`: resets the two counters, leaves the slots alone. -/
def error_init (m : error_manager_t) : error_manager_t :=
  { m with count := 0, last_index := 0 }

/-- Embeds `error_log`: writes slot `last_index % 32`, bumps `last_index` (a `uint32_t` increment that
wraps), and bumps `count` while it is below `ERROR_LOG_SIZE` (the guard keeps that increment
inside the 32-bit range). The timestamp written is the constant `0`. -/
def error_log (m : error_manager_t) (error_code : error_t) (severity : error_severity_t)
    (context : Nat) : error_manager_t :=
  let idx := slot_of m.last_index
  { log := Function.update m.log idx
      { error_code := error_code, severity := severity, timestamp := 0, context := context },
    last_index := u32_inc m.last_index,
    count := if m.count < ERROR_LOG_SIZE then m.count + 1 else m.count }

/-- Embeds `error_get_last`: `ERR_OK` when `count == 0`, else the code in slot `(last_index - 1) % 32`. -/
def error_get_last (m : error_manager_t) : error_t :=
  if m.count = 0 then ERR_OK
  else (m.log (slot_of (u32_dec m.last_index))).error_code

/-- Embeds `error_get_last_severity`: `SEVERITY_INFO` when `count == 0`, else the severity in slot
`(last_index - 1) % 32`. -/
def error_get_last_severity (m : error_manager_t) : error_severity_t :=
  if m.count = 0 then SEVERITY_INFO
  else (m.log (slot_of (u32_dec m.last_index))).severity

/-- Embeds `error_get_count`. -/
def error_get_count (m : error_manager_t) : Nat := m.count

/-- Embeds `error_clear_last`: decrements `count` when it is positive (the guard keeps the decrement
from wrapping). -/
def error_clear_last (m : error_manager_t) : error_manager_t :=
  if m.count > 0 then { m with count := m.count - 1 } else m

/-- The arguments of one `error_log` call: code, severity, context. -/
structure log_call where
  code : error_t
  sev : error_severity_t
  ctx : Nat
  deriving DecidableEq, Repr, Inhabited

/-- The slot contents `error_log` writes for a call. -/
def log_call.entry (c : log_call) : error_entry_t :=
  { error_code := c.code, severity := c.sev, timestamp := 0, context := c.ctx }

/-- Consecutive `error_log` calls, first element of the list first. -/
def error_log_all (m : error_manager_t) (calls : List log_call) : error_manager_t :=
  calls.foldl (fun st c => error_log st c.code c.sev c.ctx) m

/-- One call through the public interface of the error manager (all but `error_init`). -/
inductive error_op where
  | log (error_code : error_t) (severity : error_severity_t) (context : Nat)
  | clear_last
  | get_last
  | get_last_severity
  | get_count
  deriving DecidableEq, Repr

/-- What a call hands back to its caller. -/
inductive error_ret where
  | void
  | code (c : error_t)
  | severity (s : error_severity_t)
  | count (n : Nat)
  deriving DecidableEq, Repr

/-- Effect and returned value of one call. -/
def error_step (m : error_manager_t) : error_op → error_manager_t × error_ret
  | .log c s x => (error_log m c s x, .void)
  | .clear_last => (error_clear_last m, .void)
  | .get_last => (m, .code (error_get_last m))
  | .get_last_severity => (m, .severity (error_get_last_severity m))
  | .get_count => (m, .count (error_get_count m))

/-- The values returned by a sequence of calls, in call order. -/
def error_run (m : error_manager_t) : List error_op → List error_ret
  | [] => []
  | op :: ops => (error_step m op).2 :: error_run (error_step m op).1 ops

/-- The state a sequence of calls ends in. -/
def error_exec (m : error_manager_t) : List error_op → error_manager_t
  | [] => m
  | op :: ops => error_exec (error_step m op).1 ops

/-- Whether a call is an `error_log` call. -/
def error_op.is_log : error_op → Bool
  | .log _ _ _ => true
  | _ => false

/-- The most recent record: the slot `(last_index - 1) % 32` that the read queries address. -/
def last_entry (m : error_manager_t) : error_entry_t :=
  m.log (slot_of (u32_dec m.last_index))

/-- Two managers that no sequence of calls can tell apart: equal counters, and either no
record is readable or the slot the read queries address holds the same entry. -/
def same_view (m1 m2 : error_manager_t) : Prop :=
  m1.count = m2.count ∧ m1.last_index = m2.last_index ∧
    (m1.count = 0 ∨
      m1.log (slot_of (u32_dec m1.last_index)) = m2.log (slot_of (u32_dec m2.last_index)))

/-! ## `src/app/app.h`, `src/app/app.c` -/

/-- Application states (`app_state_t`). -/
inductive app_state_t where
  | APP_STATE_INIT
  | APP_STATE_RUNNING
  | APP_STATE_ERROR
  | APP_STATE_SHUTDOWN
  deriving DecidableEq, Repr, Inhabited

open app_state_t

/-- Embeds `LED_PIN` of `src/bsp/board_config.h`. -/
def LED_PIN : Nat := 0

/-- Everything the application layer reads or writes: the two statics of `app.c`, the error
manager, and two observation logs that record calls leaving the application layer
(`toggle_calls`: the pins passed to `gpio_driver_toggle`; `init_calls`: the positions of the
subsystem inits that `app_init` has invoked). -/
structure app_ctx where
  app_state : app_state_t
  heartbeat_counter : Nat
  error_mgr : error_manager_t
  toggle_calls : List Nat
  init_calls : List Nat

/-- The program state before `main` runs: `app_state = APP_STATE_INIT`,
`heartbeat_counter = 0`, zeroed error manager. -/
def app_ctx_zero : app_ctx :=
  { app_state := APP_STATE_INIT, heartbeat_counter := 0, error_mgr := error_mgr_zero,
    toggle_calls := [], init_calls := [] }

/-- A subsystem init as `app_init` sees it: it may use the error manager and returns a code. -/
abbrev subsystem_init_t := error_manager_t → error_t × error_manager_t

/-- Embeds `bsp_clock_init` of `src/bsp/bsp_clock.c`: a stub returning `ERR_OK`. -/
def bsp_clock_init (m : error_manager_t) : error_t × error_manager_t := (ERR_OK, m)

/-- Embeds `bsp_init` of `src/bsp/bsp_init.c`, over any clock init. -/
def bsp_init_with (clock_init : subsystem_init_t) : subsystem_init_t := fun m =>
  let r := clock_init m
  if r.1 ≠ ERR_OK then (r.1, error_log r.2 r.1 SEVERITY_FATAL 0)
  else (ERR_OK, r.2)

/-- Embeds `bsp_init` as linked in the repository. -/
def bsp_init : subsystem_init_t := bsp_init_with bsp_clock_init

/-- Embeds `gpio_driver_init`: selects the HAL backend (outside this state) and returns `ERR_OK`. -/
def gpio_driver_init : subsystem_init_t := fun m => (ERR_OK, m)

/-- Embeds `uart_driver_init`: selects the HAL backend (outside this state) and returns `ERR_OK`. -/
def uart_driver_init : subsystem_init_t := fun m => (ERR_OK, m)

/-- Embeds `gpio_driver_toggle`: forwards to the HAL and returns `ERR_OK`; the call is recorded. -/
def gpio_driver_toggle (a : app_ctx) (pin : Nat) : error_t × app_ctx :=
  (ERR_OK, { a with toggle_calls := a.toggle_calls ++ [pin] })

/-- Embeds `app_init` of `src/app/app.c` over the three subsystem inits it calls, in call order. -/
def app_init (sub0 sub1 sub2 : subsystem_init_t) (a : app_ctx) : error_t × app_ctx :=
  let a := { a with error_mgr := error_init a.error_mgr }
  let r := sub0 a.error_mgr
  let a := { a with error_mgr := r.2, init_calls := a.init_calls ++ [0] }
  if r.1 ≠ ERR_OK then
    (r.1, { a with error_mgr := error_log a.error_mgr r.1 SEVERITY_FATAL 0,
                   app_state := APP_STATE_ERROR })
  else
    let r := sub1 a.error_mgr
    let a := { a with error_mgr := r.2, init_calls := a.init_calls ++ [1] }
    if r.1 ≠ ERR_OK then
      (r.1, { a with error_mgr := error_log a.error_mgr r.1 SEVERITY_FATAL 1,
                     app_state := APP_STATE_ERROR })
    else
      let r := sub2 a.error_mgr
      let a := { a with error_mgr := r.2, init_calls := a.init_calls ++ [2] }
      if r.1 ≠ ERR_OK then
        (r.1, { a with error_mgr := error_log a.error_mgr r.1 SEVERITY_FATAL 2,
                       app_state := APP_STATE_ERROR })
      else
        (ERR_OK, { a with app_state := APP_STATE_RUNNING })

/-- Embeds `app_start`. -/
def app_start (a : app_ctx) : error_t × app_ctx :=
  if a.app_state ≠ APP_STATE_RUNNING then (ERR_NOT_INITIALIZED, a) else (ERR_OK, a)

/-- Embeds `app_stop`. -/
def app_stop (a : app_ctx) : error_t × app_ctx :=
  (ERR_OK, { a with app_state := APP_STATE_SHUTDOWN })

/-- Embeds `app_health_check`: a most recent error that is not `ERR_OK` and is `SEVERITY_FATAL`
moves the state to `APP_STATE_ERROR` and is returned. -/
def app_health_check (a : app_ctx) : error_t × app_ctx :=
  let last_err := error_get_last a.error_mgr
  if last_err ≠ ERR_OK then
    let severity := error_get_last_severity a.error_mgr
    if severity = SEVERITY_FATAL then
      (last_err, { a with app_state := APP_STATE_ERROR })
    else (ERR_OK, a)
  else (ERR_OK, a)

/-- Embeds `app_run`: one cycle of the main loop. -/
def app_run (a : app_ctx) : error_t × app_ctx :=
  if a.app_state ≠ APP_STATE_RUNNING then (ERR_NOT_INITIALIZED, a)
  else
    let a := { a with heartbeat_counter := u32_inc a.heartbeat_counter }
    let a := if a.heartbeat_counter % 1000 = 0 then (gpio_driver_toggle a LED_PIN).2 else a
    let r := app_health_check a
    if r.1 ≠ ERR_OK then (r.1, { r.2 with app_state := APP_STATE_ERROR })
    else (ERR_OK, r.2)

/-- Embeds `app_get_state`. -/
def app_get_state (a : app_ctx) : app_state_t := a.app_state

/-- Any call through the interface of the error manager, `error_init` included. -/
inductive error_call where
  | init
  | op (o : error_op)
  deriving DecidableEq, Repr

/-- Effect of one interface call on the manager. -/
def error_call_step (m : error_manager_t) : error_call → error_manager_t
  | .init => error_init m
  | .op o => (error_step m o).1

/-- Whether an interface call is an `error_log` call. -/
def error_call.is_log : error_call → Bool
  | .init => false
  | .op o => o.is_log

/-- The manager a sequence of interface calls ends in. -/
def error_call_exec (m : error_manager_t) : List error_call → error_manager_t
  | [] => m
  | c :: cs => error_call_exec (error_call_step m c) cs

/-- The program state `app_run` hands to its health check when it starts in RUNNING: the
heartbeat counter incremented, and the LED toggled when the new counter is a multiple of
1000. -/
def app_run_mid (a : app_ctx) : app_ctx :=
  { a with
    heartbeat_counter := u32_inc a.heartbeat_counter,
    toggle_calls :=
      if u32_inc a.heartbeat_counter % 1000 = 0 then a.toggle_calls ++ [LED_PIN]
      else a.toggle_calls }

/-- The program state after `n` consecutive `app_run` calls. -/
def app_run_n : Nat → app_ctx → app_ctx
  | 0, a => a
  | n + 1, a => (app_run (app_run_n n a)).2

/-- A call the surrounding program can make once start-up is over: the mutating operations
of the error manager and every operation of the application layer except `app_init`. -/
inductive sys_op where
  | error_log (error_code : error_t) (severity : error_severity_t) (context : Nat)
  | error_clear_last
  | error_init
  | app_start
  | app_stop
  | app_run
  | app_health_check
  deriving DecidableEq, Repr

/-- Effect of one such call on the program state. -/
def sys_step (a : app_ctx) : sys_op → app_ctx
  | .error_log c s x => { a with error_mgr := error_log a.error_mgr c s x }
  | .error_clear_last => { a with error_mgr := error_clear_last a.error_mgr }
  | .error_init => { a with error_mgr := error_init a.error_mgr }
  | .app_start => (app_start a).2
  | .app_stop => (app_stop a).2
  | .app_run => (app_run a).2
  | .app_health_check => (app_health_check a).2

/-- The program state a sequence of such calls ends in. -/
def sys_exec (a : app_ctx) : List sys_op → app_ctx
  | [] => a
  | o :: os => sys_exec (sys_step a o) os

/-! ## `src/main.c` -/

/-- One pass through the body of the loop in `main`: `app_run`, then, when it returned a code
other than `ERR_OK`, `error_log(err, SEVERITY_WARN, 0)`. The flag tells whether that branch
was taken. (`delay_ms` touches none of this state.) -/
def main_loop_body (a : app_ctx) : app_ctx × Bool :=
  let r := app_run a
  if r.1 ≠ ERR_OK then
    ({ r.2 with error_mgr := error_log r.2.error_mgr r.1 SEVERITY_WARN 0 }, true)
  else (r.2, false)

/-- The loop `while (app_get_state() == APP_STATE_RUNNING)` of `main`, cut off after at most
`n` passes: the state reached and how many passes took the WARN branch. -/
def main_loop : Nat → app_ctx → app_ctx × Nat
  | 0, a => (a, 0)
  | n + 1, a =>
    if app_get_state a = APP_STATE_RUNNING then
      let b := main_loop_body a
      let r := main_loop n b.1
      (r.1, r.2 + (if b.2 then 1 else 0))
    else (a, 0)

/-! ## `src/hal/hal_gpio.h`, `src/hal/hal_uart.h` -/

/-- GPIO mode (`gpio_mode_t`). -/
inductive gpio_mode_t where
  | GPIO_MODE_INPUT
  | GPIO_MODE_OUTPUT
  | GPIO_MODE_ALTERNATE
  | GPIO_MODE_ANALOG
  deriving DecidableEq, Repr

/-- GPIO output type (`gpio_output_type_t`). -/
inductive gpio_output_type_t where
  | GPIO_OUTPUT_PP
  | GPIO_OUTPUT_OD
  deriving DecidableEq, Repr

/-- GPIO pull configuration (`gpio_pull_t`). -/
inductive gpio_pull_t where
  | GPIO_PULL_NONE
  | GPIO_PULL_UP
  | GPIO_PULL_DOWN
  deriving DecidableEq, Repr

/-- GPIO speed (`gpio_speed_t`). -/
inductive gpio_speed_t where
  | GPIO_SPEED_LOW
  | GPIO_SPEED_MEDIUM
  | GPIO_SPEED_HIGH
  | GPIO_SPEED_VERY_HIGH
  deriving DecidableEq, Repr

/-- UART peripheral ids (`uart_id_t`). -/
inductive uart_id_t where
  | UART_1
  | UART_2
  | UART_3
  | UART_4
  | UART_5
  | UART_6
  deriving DecidableEq, Repr

/-- UART data bits (`uart_data_bits_t`). -/
inductive uart_data_bits_t where
  | UART_DATA_8
  | UART_DATA_9
  deriving DecidableEq, Repr

/-- UART stop bits (`uart_stop_bits_t`). -/
inductive uart_stop_bits_t where
  | UART_STOP_1
  | UART_STOP_2
  deriving DecidableEq, Repr

/-- UART parity (`uart_parity_t`). -/
inductive uart_parity_t where
  | UART_PARITY_NONE
  | UART_PARITY_EVEN
  | UART_PARITY_ODD
  deriving DecidableEq, Repr

/-- UART configuration (`uart_config_t`); the baud rate is kept as the number it encodes. -/
structure uart_config_t where
  uart_id : uart_id_t
  baud_rate : Nat
  data_bits : uart_data_bits_t
  stop_bits : uart_stop_bits_t
  parity : uart_parity_t
  deriving DecidableEq, Repr

/-- What a backend handler can reach: the hardware, of any type `HW`, and the error
manager. -/
structure hal_world (HW : Type) where
  hw : HW
  error_mgr : error_manager_t

/-- GPIO dispatch table (`gpio_hal_t`): each function pointer may be `NULL` (`none`). -/
structure gpio_hal_t (HW : Type) where
  init : Option (Nat → gpio_mode_t → gpio_output_type_t → gpio_pull_t → gpio_speed_t →
    hal_world HW → hal_world HW)
  write : Option (Nat → Bool → hal_world HW → hal_world HW)
  read : Option (Nat → hal_world HW → Bool × hal_world HW)
  toggle : Option (Nat → hal_world HW → hal_world HW)

/-- UART dispatch table (`uart_hal_t`): each function pointer may be `NULL` (`none`). A data
pointer is `none` for `NULL` and otherwise carries the bytes it points to; a handler that
writes through its pointer hands the new bytes back. -/
structure uart_hal_t (HW : Type) where
  init : Option (uart_id_t → Option uart_config_t → hal_world HW → error_t × hal_world HW)
  deinit : Option (uart_id_t → hal_world HW → error_t × hal_world HW)
  transmit : Option (uart_id_t → Option (List Nat) → Nat → hal_world HW →
    error_t × hal_world HW)
  receive : Option (uart_id_t → Option (List Nat) → Nat → hal_world HW →
    error_t × Option (List Nat) × hal_world HW)
  transmit_it : Option (uart_id_t → Option (List Nat) → Nat → hal_world HW →
    error_t × hal_world HW)
  receive_it : Option (uart_id_t → Option (List Nat) → Nat → hal_world HW →
    error_t × Option (List Nat) × hal_world HW)
  is_tx_complete : Option (uart_id_t → hal_world HW → Bool × hal_world HW)
  is_rx_available : Option (uart_id_t → hal_world HW → Bool × hal_world HW)

/-- The statics `gpio_hal` and `uart_hal` (`NULL` until the HAL is initialised) together
with what the handlers act on. -/
structure hal_ctx (HW : Type) where
  gpio_hal : Option (gpio_hal_t HW)
  uart_hal : Option (uart_hal_t HW)
  world : hal_world HW

/-! ## `src/hal/hal_gpio.c` -/

/-- The table `stm32_gpio_hal`: four stubs that touch nothing; the read stub returns
`false`. -/
def stm32_gpio_hal {HW : Type} : gpio_hal_t HW :=
  { init := some fun _ _ _ _ _ w => w,
    write := some fun _ _ w => w,
    read := some fun _ w => (false, w),
    toggle := some fun _ w => w }

/-- Build configurations the `#ifdef` chains of `gpio_hal_init` and `uart_hal_init`
distinguish: the first of the three macros that is defined, or none. -/
inductive hal_build where
  | USE_STM32_HAL
  | USE_STM32_LL
  | USE_OPENCM3
  | unset
  deriving DecidableEq, Repr

/-- Embeds `gpio_hal_init`: installs `stm32_gpio_hal`, except in the two configurations whose
assignment is commented out. -/
def gpio_hal_init {HW : Type} (b : hal_build) (c : hal_ctx HW) : hal_ctx HW :=
  match b with
  | .USE_STM32_HAL => { c with gpio_hal := some stm32_gpio_hal }
  | .USE_STM32_LL => c
  | .USE_OPENCM3 => c
  | .unset => { c with gpio_hal := some stm32_gpio_hal }

/-- Embeds `gpio_configure`. -/
def gpio_configure {HW : Type} (c : hal_ctx HW) (pin : Nat) (mode : gpio_mode_t)
    (otype : gpio_output_type_t) (pull : gpio_pull_t) (speed : gpio_speed_t) : hal_ctx HW :=
  match c.gpio_hal with
  | none => c
  | some h =>
    match h.init with
    | none => c
    | some f => { c with world := f pin mode otype pull speed c.world }

/-- Embeds `gpio_write`. -/
def gpio_write {HW : Type} (c : hal_ctx HW) (pin : Nat) (value : Bool) : hal_ctx HW :=
  match c.gpio_hal with
  | none => c
  | some h =>
    match h.write with
    | none => c
    | some f => { c with world := f pin value c.world }

/-- Embeds `gpio_read`. -/
def gpio_read {HW : Type} (c : hal_ctx HW) (pin : Nat) : Bool × hal_ctx HW :=
  match c.gpio_hal with
  | none => (false, c)
  | some h =>
    match h.read with
    | none => (false, c)
    | some f => ((f pin c.world).1, { c with world := (f pin c.world).2 })

/-- Embeds `gpio_toggle`. -/
def gpio_toggle {HW : Type} (c : hal_ctx HW) (pin : Nat) : hal_ctx HW :=
  match c.gpio_hal with
  | none => c
  | some h =>
    match h.toggle with
    | none => c
    | some f => { c with world := f pin c.world }

/-! ## `src/hal/hal_uart.c` -/

/-- The table `stm32_uart_hal`: stubs that touch nothing and return `ERR_OK`; the two status
stubs return `true` (tx complete) and `false` (rx available). -/
def stm32_uart_hal {HW : Type} : uart_hal_t HW :=
  { init := some fun _ _ w => (ERR_OK, w),
    deinit := some fun _ w => (ERR_OK, w),
    transmit := some fun _ _ _ w => (ERR_OK, w),
    receive := some fun _ d _ w => (ERR_OK, d, w),
    transmit_it := some fun _ _ _ w => (ERR_OK, w),
    receive_it := some fun _ d _ w => (ERR_OK, d, w),
    is_tx_complete := some fun _ w => (true, w),
    is_rx_available := some fun _ w => (false, w) }

/-- Embeds `uart_hal_init`: installs `stm32_uart_hal`, except in the two configurations whose
assignment is commented out. -/
def uart_hal_init {HW : Type} (b : hal_build) (c : hal_ctx HW) : hal_ctx HW :=
  match b with
  | .USE_STM32_HAL => { c with uart_hal := some stm32_uart_hal }
  | .USE_STM32_LL => c
  | .USE_OPENCM3 => c
  | .unset => { c with uart_hal := some stm32_uart_hal }

/-- Embeds `uart_configure`. -/
def uart_configure {HW : Type} (c : hal_ctx HW) (uart_id : uart_id_t)
    (config : Option uart_config_t) : error_t × hal_ctx HW :=
  match c.uart_hal with
  | none => (ERR_NOT_INITIALIZED, c)
  | some h =>
    match h.init with
    | none => (ERR_NOT_INITIALIZED, c)
    | some f => ((f uart_id config c.world).1, { c with world := (f uart_id config c.world).2 })

/-- Embeds `uart_deinit`. -/
def uart_deinit {HW : Type} (c : hal_ctx HW) (uart_id : uart_id_t) : error_t × hal_ctx HW :=
  match c.uart_hal with
  | none => (ERR_NOT_INITIALIZED, c)
  | some h =>
    match h.deinit with
    | none => (ERR_NOT_INITIALIZED, c)
    | some f => ((f uart_id c.world).1, { c with world := (f uart_id c.world).2 })

/-- Embeds `uart_transmit`. -/
def uart_transmit {HW : Type} (c : hal_ctx HW) (uart_id : uart_id_t)
    (data : Option (List Nat)) (length : Nat) : error_t × hal_ctx HW :=
  match c.uart_hal with
  | none => (ERR_NOT_INITIALIZED, c)
  | some h =>
    match h.transmit with
    | none => (ERR_NOT_INITIALIZED, c)
    | some f =>
      ((f uart_id data length c.world).1, { c with world := (f uart_id data length c.world).2 })

/-- Embeds `uart_receive`; the second component is the buffer after the call. -/
def uart_receive {HW : Type} (c : hal_ctx HW) (uart_id : uart_id_t)
    (data : Option (List Nat)) (length : Nat) : error_t × Option (List Nat) × hal_ctx HW :=
  match c.uart_hal with
  | none => (ERR_NOT_INITIALIZED, data, c)
  | some h =>
    match h.receive with
    | none => (ERR_NOT_INITIALIZED, data, c)
    | some f =>
      ((f uart_id data length c.world).1, (f uart_id data length c.world).2.1,
        { c with world := (f uart_id data length c.world).2.2 })

/-- Embeds `uart_transmit_it`. -/
def uart_transmit_it {HW : Type} (c : hal_ctx HW) (uart_id : uart_id_t)
    (data : Option (List Nat)) (length : Nat) : error_t × hal_ctx HW :=
  match c.uart_hal with
  | none => (ERR_NOT_INITIALIZED, c)
  | some h =>
    match h.transmit_it with
    | none => (ERR_NOT_INITIALIZED, c)
    | some f =>
      ((f uart_id data length c.world).1, { c with world := (f uart_id data length c.world).2 })

/-- Embeds `uart_receive_it`; the second component is the buffer after the call. -/
def uart_receive_it {HW : Type} (c : hal_ctx HW) (uart_id : uart_id_t)
    (data : Option (List Nat)) (length : Nat) : error_t × Option (List Nat) × hal_ctx HW :=
  match c.uart_hal with
  | none => (ERR_NOT_INITIALIZED, data, c)
  | some h =>
    match h.receive_it with
    | none => (ERR_NOT_INITIALIZED, data, c)
    | some f =>
      ((f uart_id data length c.world).1, (f uart_id data length c.world).2.1,
        { c with world := (f uart_id data length c.world).2.2 })

/-- Embeds `uart_is_tx_complete`. -/
def uart_is_tx_complete {HW : Type} (c : hal_ctx HW) (uart_id : uart_id_t) :
    Bool × hal_ctx HW :=
  match c.uart_hal with
  | none => (false, c)
  | some h =>
    match h.is_tx_complete with
    | none => (false, c)
    | some f => ((f uart_id c.world).1, { c with world := (f uart_id c.world).2 })

/-- Embeds `uart_is_rx_available`. -/
def uart_is_rx_available {HW : Type} (c : hal_ctx HW) (uart_id : uart_id_t) :
    Bool × hal_ctx HW :=
  match c.uart_hal with
  | none => (false, c)
  | some h =>
    match h.is_rx_available with
    | none => (false, c)
    | some f => ((f uart_id c.world).1, { c with world := (f uart_id c.world).2 })

/-! ## `src/drivers/uart_driver.c`, `src/drivers/gpio_driver.c` -/

/-- Embeds `uart_driver_write`. -/
def uart_driver_write {HW : Type} (c : hal_ctx HW) (uart_id : uart_id_t)
    (data : Option (List Nat)) (length : Nat) : error_t × hal_ctx HW :=
  if data = none ∨ length = 0 then (ERR_INVALID_PARAM, c)
  else uart_transmit c uart_id data length

/-- Embeds `uart_driver_read`; the second component is the buffer after the call. -/
def uart_driver_read {HW : Type} (c : hal_ctx HW) (uart_id : uart_id_t)
    (data : Option (List Nat)) (length : Nat) : error_t × Option (List Nat) × hal_ctx HW :=
  if data = none ∨ length = 0 then (ERR_INVALID_PARAM, data, c)
  else uart_receive c uart_id data length

/-- Embeds `uart_driver_write_string`: a present string is the list of its characters before
the terminator, so `strlen` is the length of the list, cast to `uint16_t`. -/
def uart_driver_write_string {HW : Type} (c : hal_ctx HW) (uart_id : uart_id_t)
    (str : Option (List Nat)) : error_t × hal_ctx HW :=
  match str with
  | none => (ERR_INVALID_PARAM, c)
  | some chars => uart_transmit c uart_id (some chars) (chars.length % 65536)

/-- Embeds `gpio_driver_read`: `value` is `none` for a `NULL` pointer and otherwise the
`bool` it points to; the second component is that `bool` after the call. -/
def gpio_driver_read {HW : Type} (c : hal_ctx HW) (pin : Nat) (value : Option Bool) :
    error_t × Option Bool × hal_ctx HW :=
  match value with
  | none => (ERR_INVALID_PARAM, none, c)
  | some _ => (ERR_OK, some (gpio_read c pin).1, (gpio_read c pin).2)

/-- The HAL before `gpio_hal_init` and `uart_hal_init`: both table pointers `NULL`. -/
def hal_ctx_zero {HW : Type} (hw : HW) : hal_ctx HW :=
  { gpio_hal := none, uart_hal := none, world := { hw := hw, error_mgr := error_mgr_zero } }

/-- A HAL on hardware that is a call counter: the GPIO table is installed with a toggle
handler only (it bumps the counter), the UART table with a transmit handler only (it bumps
the counter and reports `ERR_INVALID_PARAM`). -/
def hal_ctx_counting : hal_ctx Nat :=
  { gpio_hal := some
      { init := none, write := none, read := none,
        toggle := some fun _ w => { w with hw := w.hw + 1 } },
    uart_hal := some
      { init := none, deinit := none,
        transmit := some fun _ _ _ w => (ERR_INVALID_PARAM, { w with hw := w.hw + 1 }),
        receive := none, transmit_it := none, receive_it := none,
        is_tx_complete := none, is_rx_available := none },
    world := { hw := 0, error_mgr := error_mgr_zero } }

/-! ## Arithmetic of the slot index -/

theorem slot_of_dec_inc (w : Nat) : slot_of (u32_dec (u32_inc w)) = slot_of w := by
  apply Fin.ext
  simp only [slot_of, u32_dec, u32_inc, U32_MOD]
  omega

theorem error_log_count_ne_zero (m : error_manager_t) (c : error_t) (s : error_severity_t)
    (x : Nat) : (error_log m c s x).count ≠ 0 := by
  simp only [error_log, ERROR_LOG_SIZE]
  split <;> omega

theorem error_log_last_slot (m : error_manager_t) (c : error_t) (s : error_severity_t)
    (x : Nat) :
    (error_log m c s x).log (slot_of (u32_dec (error_log m c s x).last_index))
      = { error_code := c, severity := s, timestamp := 0, context := x } := by
  simp [error_log, slot_of_dec_inc]

theorem error_log_get_last_aux (m : error_manager_t) (c : error_t) (s : error_severity_t)
    (x : Nat) :
    error_get_last (error_log m c s x) = c ∧
      error_get_last_severity (error_log m c s x) = s := by
  have hc := error_log_count_ne_zero m c s x
  have hs := error_log_last_slot m c s x
  simp [error_get_last, error_get_last_severity, hc, hs]

/-! ## Recency (C1) -/

/-- C1: in every error-manager state (any count, any write index, any slot contents), right
after `error_log c s x` the query `error_get_last` returns `c` and `error_get_last_severity`
returns `s`. -/
theorem error_log_get_last (m : error_manager_t) (c : error_t) (s : error_severity_t)
    (x : Nat) :
    error_get_last (error_log m c s x) = c ∧
      error_get_last_severity (error_log m c s x) = s :=
  error_log_get_last_aux m c s x

/-! ## Saturating count (C2) -/

theorem error_log_all_nil (m : error_manager_t) : error_log_all m [] = m := rfl

theorem error_log_all_cons (m : error_manager_t) (c : log_call) (cs : List log_call) :
    error_log_all m (c :: cs) = error_log_all (error_log m c.code c.sev c.ctx) cs := rfl

theorem error_log_all_snoc (m : error_manager_t) (cs : List log_call) (c : log_call) :
    error_log_all m (cs ++ [c]) = error_log (error_log_all m cs) c.code c.sev c.ctx := by
  simp [error_log_all, List.foldl_append]

theorem error_log_all_count (calls : List log_call) (m : error_manager_t)
    (h : m.count ≤ 32) : (error_log_all m calls).count = min (m.count + calls.length) 32 := by
  induction calls generalizing m with
  | nil => simp [error_log_all_nil]; omega
  | cons c cs ih =>
    rw [error_log_all_cons]
    have hc : (error_log m c.code c.sev c.ctx).count = min (m.count + 1) 32 := by
      simp only [error_log, ERROR_LOG_SIZE]
      split <;> omega
    rw [ih _ (by rw [hc]; omega), hc, List.length_cons]
    omega

/-- C2: from any state, after `error_init` and then `n` calls of `error_log` with arbitrary
arguments, `error_get_count` is `min n 32`, hence at most 32. -/
theorem error_get_count_after_logs (m : error_manager_t) (calls : List log_call) :
    error_get_count (error_log_all (error_init m) calls) = min calls.length 32 ∧
      error_get_count (error_log_all (error_init m) calls) ≤ 32 := by
  have h := error_log_all_count calls (error_init m) (by simp [error_init])
  have h0 : (error_init m).count = 0 := rfl
  rw [h0] at h
  simp only [error_get_count, h]
  omega

/-! ## `error_clear_last` against the read queries (C3, C4) -/

/-- C3, as stated, fails: with exactly one record present, `error_clear_last` brings `count`
to 0 and the two queries fall back to `ERR_OK` / `SEVERITY_INFO`. -/
theorem error_clear_last_changes_get_last :
    error_get_last (error_log (error_init error_mgr_zero) ERR_HW_FAILURE SEVERITY_FATAL 7)
        = ERR_HW_FAILURE ∧
      error_get_last (error_clear_last
        (error_log (error_init error_mgr_zero) ERR_HW_FAILURE SEVERITY_FATAL 7)) = ERR_OK ∧
      error_get_last_severity
        (error_log (error_init error_mgr_zero) ERR_HW_FAILURE SEVERITY_FATAL 7)
        = SEVERITY_FATAL ∧
      error_get_last_severity (error_clear_last
        (error_log (error_init error_mgr_zero) ERR_HW_FAILURE SEVERITY_FATAL 7))
        = SEVERITY_INFO := by
  decide

/-- C3, amended: in every state whose count is not 1, `error_clear_last` changes neither the
value of `error_get_last` nor the value of `error_get_last_severity`. -/
theorem error_clear_last_keeps_get_last (m : error_manager_t) (h : m.count ≠ 1) :
    error_get_last (error_clear_last m) = error_get_last m ∧
      error_get_last_severity (error_clear_last m) = error_get_last_severity m := by
  by_cases h0 : m.count = 0
  · simp [error_clear_last, h0]
  · have h1 : m.count - 1 ≠ 0 := by omega
    have hp : m.count > 0 := by omega
    simp [error_clear_last, error_get_last, error_get_last_severity, hp, h0, h1]

theorem error_clear_last_keeps_get_last_witness :
    (error_log_all (error_init error_mgr_zero)
        [⟨ERR_TIMEOUT, SEVERITY_WARN, 1⟩, ⟨ERR_HW_FAILURE, SEVERITY_FATAL, 7⟩]).count ≠ 1 ∧
      error_get_last (error_clear_last (error_log_all (error_init error_mgr_zero)
        [⟨ERR_TIMEOUT, SEVERITY_WARN, 1⟩, ⟨ERR_HW_FAILURE, SEVERITY_FATAL, 7⟩]))
        = ERR_HW_FAILURE :=
  ⟨by decide,
   ((error_clear_last_keeps_get_last (error_log_all (error_init error_mgr_zero)
      [⟨ERR_TIMEOUT, SEVERITY_WARN, 1⟩, ⟨ERR_HW_FAILURE, SEVERITY_FATAL, 7⟩])
      (by decide)).1).trans (by decide)⟩

/-- C4: `error_clear_last` lowers `error_get_count` by exactly one when the count is positive
and returns the state unchanged when the count is 0; the write index and all 32 slots are
the same either way. -/
theorem error_clear_last_frame (m : error_manager_t) :
    (0 < error_get_count m →
        error_get_count (error_clear_last m) + 1 = error_get_count m) ∧
      (error_get_count m = 0 → error_clear_last m = m) ∧
      (error_clear_last m).last_index = m.last_index ∧
      (∀ i : Fin 32, (error_clear_last m).log i = m.log i) := by
  simp only [error_get_count, error_clear_last]
  refine ⟨fun h => ?_, fun h => ?_, ?_, fun i => ?_⟩
  · simp [h]; omega
  · simp [h]
  · split <;> rfl
  · split <;> rfl

theorem error_clear_last_frame_witness :
    error_get_count (error_clear_last
        (error_log (error_init error_mgr_zero) ERR_BUSY SEVERITY_WARN 3)) + 1
        = error_get_count (error_log (error_init error_mgr_zero) ERR_BUSY SEVERITY_WARN 3) ∧
      error_clear_last error_mgr_zero = error_mgr_zero :=
  ⟨(error_clear_last_frame
      (error_log (error_init error_mgr_zero) ERR_BUSY SEVERITY_WARN 3)).1 (by decide),
   (error_clear_last_frame error_mgr_zero).2.1 rfl⟩

/-! ## Reset (C5) -/

/-- C5: from every state, after `error_init` the count and the write index are 0,
`error_get_count` returns 0, `error_get_last` returns `ERR_OK` and
`error_get_last_severity` returns `SEVERITY_INFO`. -/
theorem error_init_resets (m : error_manager_t) :
    (error_init m).count = 0 ∧ (error_init m).last_index = 0 ∧
      error_get_count (error_init m) = 0 ∧
      error_get_last (error_init m) = ERR_OK ∧
      error_get_last_severity (error_init m) = SEVERITY_INFO := by
  simp [error_init, error_get_count, error_get_last, error_get_last_severity]

/-! ## Stale slots after a reset (C6) -/

theorem same_view_init (m1 m2 : error_manager_t) : same_view (error_init m1) (error_init m2) :=
  ⟨rfl, rfl, Or.inl rfl⟩

theorem same_view_step (m1 m2 : error_manager_t) (op : error_op) (h : same_view m1 m2) :
    (error_step m1 op).2 = (error_step m2 op).2 ∧
      same_view (error_step m1 op).1 (error_step m2 op).1 := by
  obtain ⟨hc, hl, hs⟩ := h
  cases op with
  | log c s x =>
    refine ⟨rfl, ?_, ?_, Or.inr ?_⟩
    · simp [error_step, error_log, hc]
    · simp [error_step, error_log, hl]
    · simp only [error_step]
      rw [error_log_last_slot, error_log_last_slot]
  | clear_last =>
    refine ⟨rfl, ?_, ?_, ?_⟩
    · simp only [error_step, error_clear_last, hc]
      split <;> first | rfl | exact hc
    · simp only [error_step, error_clear_last, hc]
      split <;> exact hl
    · rcases hs with h0 | hs
      · left
        simp [error_step, error_clear_last, h0]
      · right
        simp only [error_step, error_clear_last, hc]
        split <;> exact hs
  | get_last =>
    refine ⟨?_, hc, hl, hs⟩
    simp only [error_step, error_get_last, ← hc]
    rcases hs with h0 | hs
    · simp [h0]
    · rw [hs]
  | get_last_severity =>
    refine ⟨?_, hc, hl, hs⟩
    simp only [error_step, error_get_last_severity, ← hc]
    rcases hs with h0 | hs
    · simp [h0]
    · rw [hs]
  | get_count =>
    exact ⟨by simp [error_step, error_get_count, hc], hc, hl, hs⟩

theorem same_view_run (ops : List error_op) (m1 m2 : error_manager_t) (h : same_view m1 m2) :
    error_run m1 ops = error_run m2 ops := by
  induction ops generalizing m1 m2 with
  | nil => rfl
  | cons op ops ih =>
    obtain ⟨hr, hv⟩ := same_view_step m1 m2 op h
    simp only [error_run, hr, ih _ _ hv]

/-- C6: for any two error-manager states and any finite sequence of `error_log`,
`error_clear_last`, `error_get_last`, `error_get_last_severity` and `error_get_count` calls,
running `error_init` and then the sequence returns the same values from both states. -/
theorem error_init_hides_stale_records (m1 m2 : error_manager_t) (ops : List error_op) :
    error_run (error_init m1) ops = error_run (error_init m2) ops :=
  same_view_run ops _ _ (same_view_init m1 m2)

/-! ## Wraparound overwrite (C7) -/

theorem slot_of_mod (n : Nat) : slot_of (n % U32_MOD) = slot_of n := by
  apply Fin.ext
  simp only [slot_of, U32_MOD]
  omega

theorem error_log_all_last_index (calls : List log_call) (m : error_manager_t) :
    (error_log_all (error_init m) calls).last_index = calls.length % U32_MOD := by
  induction calls using List.reverseRecOn with
  | nil => simp [error_log_all_nil, error_init, U32_MOD]
  | append_singleton cs c ih =>
    rw [error_log_all_snoc]
    simp only [error_log, ih, u32_inc, U32_MOD, List.length_append, List.length_singleton]
    omega

theorem error_log_all_recent_slot (calls : List log_call) (m : error_manager_t) :
    ∀ (j : Nat) (c : log_call), calls[j]? = some c → calls.length ≤ j + 32 →
      (error_log_all (error_init m) calls).log (slot_of j) = c.entry := by
  induction calls using List.reverseRecOn with
  | nil => intro j c h; simp at h
  | append_singleton cs c0 ih =>
    intro j c hj hlen
    rw [error_log_all_snoc]
    simp only [List.length_append, List.length_singleton] at hlen
    have hidx : slot_of (error_log_all (error_init m) cs).last_index = slot_of cs.length := by
      rw [error_log_all_last_index, slot_of_mod]
    by_cases hjl : j < cs.length
    · rw [List.getElem?_append_left hjl] at hj
      have hne : slot_of j ≠ slot_of cs.length := by
        intro he
        have := congrArg Fin.val he
        simp only [slot_of] at this
        omega
      simp only [error_log, hidx]
      rw [Function.update_noteq hne]
      exact ih j c hj (by omega)
    · have hjlen : j < (cs ++ [c0]).length := by
        by_contra hcon
        rw [List.getElem?_eq_none (by omega)] at hj
        exact absurd hj (by simp)
      simp only [List.length_append, List.length_singleton] at hjlen
      have hje : j = cs.length := by omega
      subst hje
      simp at hj
      subst hj
      simp only [error_log, hidx, Function.update_same, log_call.entry]

/-- C7: after `error_init` and `n` calls of `error_log` (any `n`, so in particular
`1 ≤ n < 2 ^ 32`), every slot `i < min n 32` holds the code, severity and context of the
latest call whose 0-based position `j` has `j % 32 = i`; after exactly 33 calls slot 0 holds
the 33rd call (position 32) in place of the first, and the count is 32. -/
theorem error_log_wraparound (m : error_manager_t) (calls : List log_call) :
    (∀ (i : Fin 32) (j : Nat) (c : log_call), i.val < min calls.length 32 →
        calls[j]? = some c → j % 32 = i.val →
        (∀ k, k < calls.length → k % 32 = i.val → k ≤ j) →
        (error_log_all (error_init m) calls).log i = c.entry) ∧
      (calls.length = 33 → ∀ c, calls[32]? = some c →
        (error_log_all (error_init m) calls).log 0 = c.entry ∧
          error_get_count (error_log_all (error_init m) calls) = 32) := by
  constructor
  · intro i j c _ hj hmod hmax
    have hjl : j < calls.length := by
      by_contra hcon
      rw [List.getElem?_eq_none (by omega)] at hj
      exact absurd hj (by simp)
    have hlast : calls.length ≤ j + 32 := by
      by_contra hcon
      have := hmax (j + 32) (by omega) (by omega)
      omega
    have hi : slot_of j = i := by
      apply Fin.ext
      simp only [slot_of]
      exact hmod
    rw [← hi]
    exact error_log_all_recent_slot calls m j c hj hlast
  · intro hlen c hc
    refine ⟨?_, ?_⟩
    · have := error_log_all_recent_slot calls m 32 c hc (by omega)
      simpa [slot_of] using this
    · have hcnt := error_log_all_count calls (error_init m) (by simp [error_init])
      have h0 : (error_init m).count = 0 := rfl
      rw [h0, hlen] at hcnt
      simpa [error_get_count] using hcnt

theorem error_log_wraparound_witness :
    (error_log_all (error_init error_mgr_zero)
        ((List.range 33).map fun k => ⟨ERR_TIMEOUT, SEVERITY_WARN, k⟩)).log 0
      = { error_code := ERR_TIMEOUT, severity := SEVERITY_WARN, timestamp := 0, context := 32 } :=
  (error_log_wraparound error_mgr_zero
      ((List.range 33).map fun k => ⟨ERR_TIMEOUT, SEVERITY_WARN, k⟩)).1
    0 32 ⟨ERR_TIMEOUT, SEVERITY_WARN, 32⟩ (by decide) (by decide) (by decide)
    (by intro k hk _; simp at hk; omega)

/-! ## Initialisation sequence (C8) -/

/-- C8: with the three subsystem inits arbitrary (results `r0`, `r1`, `r2` in call order):
when all three return `ERR_OK`, `app_init` returns `ERR_OK` in state `APP_STATE_RUNNING`;
otherwise, for the first position `k` with a result other than `ERR_OK`, it returns that
result in state `APP_STATE_ERROR`, has invoked exactly the inits at positions `0..k`, and
the most recent error record is `(r_k, SEVERITY_FATAL, k)`. -/
theorem app_init_sequence (sub0 sub1 sub2 : subsystem_init_t) (a : app_ctx) :
    let r0 := sub0 (error_init a.error_mgr)
    let r1 := sub1 r0.2
    let r2 := sub2 r1.2
    let out := app_init sub0 sub1 sub2 a
    (r0.1 = ERR_OK → r1.1 = ERR_OK → r2.1 = ERR_OK →
        out.1 = ERR_OK ∧ out.2.app_state = APP_STATE_RUNNING ∧
          out.2.init_calls = a.init_calls ++ [0, 1, 2]) ∧
      (r0.1 ≠ ERR_OK →
        out.1 = r0.1 ∧ out.2.app_state = APP_STATE_ERROR ∧
          out.2.init_calls = a.init_calls ++ [0] ∧
          error_get_last out.2.error_mgr = r0.1 ∧
          error_get_last_severity out.2.error_mgr = SEVERITY_FATAL ∧
          last_entry out.2.error_mgr =
            { error_code := r0.1, severity := SEVERITY_FATAL, timestamp := 0, context := 0 }) ∧
      (r0.1 = ERR_OK → r1.1 ≠ ERR_OK →
        out.1 = r1.1 ∧ out.2.app_state = APP_STATE_ERROR ∧
          out.2.init_calls = a.init_calls ++ [0, 1] ∧
          error_get_last out.2.error_mgr = r1.1 ∧
          error_get_last_severity out.2.error_mgr = SEVERITY_FATAL ∧
          last_entry out.2.error_mgr =
            { error_code := r1.1, severity := SEVERITY_FATAL, timestamp := 0, context := 1 }) ∧
      (r0.1 = ERR_OK → r1.1 = ERR_OK → r2.1 ≠ ERR_OK →
        out.1 = r2.1 ∧ out.2.app_state = APP_STATE_ERROR ∧
          out.2.init_calls = a.init_calls ++ [0, 1, 2] ∧
          error_get_last out.2.error_mgr = r2.1 ∧
          error_get_last_severity out.2.error_mgr = SEVERITY_FATAL ∧
          last_entry out.2.error_mgr =
            { error_code := r2.1, severity := SEVERITY_FATAL, timestamp := 0, context := 2 }) := by
  intro r0 r1 r2 out
  refine ⟨fun h0 h1 h2 => ?_, fun h0 => ?_, fun h0 h1 => ?_, fun h0 h1 h2 => ?_⟩
  · simp [out, app_init, r0, r1, r2, h0, h1, h2] at *
    simp [h0, h1, h2]
  · have hg := error_log_get_last_aux r0.2 r0.1 SEVERITY_FATAL 0
    simp only [out, app_init, r0] at *
    simp [h0, hg, last_entry, error_log_last_slot]
  · have hg := error_log_get_last_aux r1.2 r1.1 SEVERITY_FATAL 1
    simp only [out, app_init, r0, r1] at *
    simp [h0, h1, hg, last_entry, error_log_last_slot]
  · have hg := error_log_get_last_aux r2.2 r2.1 SEVERITY_FATAL 2
    simp only [out, app_init, r0, r1, r2] at *
    simp [h0, h1, h2, hg, last_entry, error_log_last_slot]

theorem app_init_sequence_witness :
    ((app_init bsp_init gpio_driver_init uart_driver_init app_ctx_zero).1 = ERR_OK ∧
        (app_init bsp_init gpio_driver_init uart_driver_init app_ctx_zero).2.app_state
          = APP_STATE_RUNNING) ∧
      ((app_init bsp_init (fun m => (ERR_HW_FAILURE, m)) uart_driver_init app_ctx_zero).1
          = ERR_HW_FAILURE ∧
        (app_init bsp_init (fun m => (ERR_HW_FAILURE, m)) uart_driver_init
          app_ctx_zero).2.app_state = APP_STATE_ERROR ∧
        (app_init bsp_init (fun m => (ERR_HW_FAILURE, m)) uart_driver_init
          app_ctx_zero).2.init_calls = [0, 1]) :=
  have hok := (app_init_sequence bsp_init gpio_driver_init uart_driver_init app_ctx_zero).1
    (by decide) (by decide) (by decide)
  have hbad := (app_init_sequence bsp_init (fun m => (ERR_HW_FAILURE, m)) uart_driver_init
    app_ctx_zero).2.2.1 (by decide) (by decide)
  ⟨⟨hok.1, hok.2.1⟩, hbad.1, hbad.2.1, hbad.2.2.1⟩

/-! ## Health check (C9, C10) -/

/-- C9, as stated, fails: the code `ERR_OK` logged at `SEVERITY_FATAL` in state
`APP_STATE_RUNNING` leaves both `app_health_check` and `app_run` in `APP_STATE_RUNNING`;
and when an `error_clear_last` follows the fatal `error_log` of a sole record, the health
check returns `ERR_OK` and the state stays `APP_STATE_RUNNING` as well. -/
theorem app_health_check_fatal_ok_stays_running :
    ((app_health_check { app_ctx_zero with
        app_state := APP_STATE_RUNNING,
        error_mgr := error_log error_mgr_zero ERR_OK SEVERITY_FATAL 0 }).2.app_state
        = APP_STATE_RUNNING ∧
      (app_run { app_ctx_zero with
        app_state := APP_STATE_RUNNING,
        error_mgr := error_log error_mgr_zero ERR_OK SEVERITY_FATAL 0 }).2.app_state
        = APP_STATE_RUNNING) ∧
      ((app_health_check { app_ctx_zero with
        app_state := APP_STATE_RUNNING,
        error_mgr := error_clear_last
          (error_log error_mgr_zero ERR_HW_FAILURE SEVERITY_FATAL 7) }).1 = ERR_OK ∧
      (app_health_check { app_ctx_zero with
        app_state := APP_STATE_RUNNING,
        error_mgr := error_clear_last
          (error_log error_mgr_zero ERR_HW_FAILURE SEVERITY_FATAL 7) }).2.app_state
        = APP_STATE_RUNNING) := by
  decide

theorem error_call_exec_count_zero (calls : List error_call) (m : error_manager_t)
    (h : ∀ k ∈ calls, k.is_log = false) (h0 : m.count = 0) :
    (error_call_exec m calls).count = 0 := by
  induction calls generalizing m with
  | nil => exact h0
  | cons k ks ih =>
    have hk := h k (List.mem_cons_self _ _)
    refine ih (error_call_step m k) (fun o ho => h o (List.mem_cons_of_mem _ ho)) ?_
    cases k with
    | init => rfl
    | op o =>
      cases o with
      | log c s x => simp [error_call.is_log, error_op.is_log] at hk
      | clear_last => simp [error_call_step, error_step, error_clear_last, h0]
      | get_last => exact h0
      | get_last_severity => exact h0
      | get_count => exact h0

theorem error_call_exec_no_log (calls : List error_call) (m : error_manager_t)
    (h : ∀ k ∈ calls, k.is_log = false) :
    (error_call_exec m calls).count = 0 ∨
      ((error_call_exec m calls).log = m.log ∧
        (error_call_exec m calls).last_index = m.last_index) := by
  induction calls generalizing m with
  | nil => exact Or.inr ⟨rfl, rfl⟩
  | cons k ks ih =>
    have hk := h k (List.mem_cons_self _ _)
    have hks : ∀ o ∈ ks, o.is_log = false := fun o ho => h o (List.mem_cons_of_mem _ ho)
    have hsame : ∀ m2 : error_manager_t, m2.log = m.log → m2.last_index = m.last_index →
        (error_call_exec m2 ks).count = 0 ∨
          ((error_call_exec m2 ks).log = m.log ∧
            (error_call_exec m2 ks).last_index = m.last_index) := by
      intro m2 hl hi
      rcases ih m2 hks with h0 | ⟨h1, h2⟩
      · exact Or.inl h0
      · exact Or.inr ⟨h1.trans hl, h2.trans hi⟩
    cases k with
    | init => exact Or.inl (error_call_exec_count_zero ks _ hks rfl)
    | op o =>
      cases o with
      | log c s x => simp [error_call.is_log, error_op.is_log] at hk
      | clear_last =>
        refine hsame (error_clear_last m) ?_ ?_
        · simp only [error_clear_last]
          split <;> rfl
        · simp only [error_clear_last]
          split <;> rfl
      | get_last => exact hsame m rfl rfl
      | get_last_severity => exact hsame m rfl rfl
      | get_count => exact hsame m rfl rfl

/-- C9, amended: for every code `c` other than `ERR_OK` and every context `x`, if the state is
`APP_STATE_RUNNING`, `error_log c SEVERITY_FATAL x` is the most recent log call (any
`error_clear_last`, `error_init` and query calls may have followed it) and the log has not
been emptied since (`error_get_count` is not 0 at the check), then `app_health_check`, and
likewise `app_run`, returns `c` and leaves the state `APP_STATE_ERROR`. -/
theorem app_health_check_fatal (a : app_ctx) (c : error_t) (x : Nat)
    (calls : List error_call)
    (hc : c ≠ ERR_OK) (hr : a.app_state = APP_STATE_RUNNING)
    (hcalls : ∀ k ∈ calls, k.is_log = false)
    (hcount :
      error_get_count (error_call_exec (error_log a.error_mgr c SEVERITY_FATAL x) calls) ≠ 0) :
    (app_health_check { a with
        error_mgr := error_call_exec (error_log a.error_mgr c SEVERITY_FATAL x) calls }).1
        = c ∧
      (app_health_check { a with
        error_mgr :=
          error_call_exec (error_log a.error_mgr c SEVERITY_FATAL x) calls }).2.app_state
        = APP_STATE_ERROR ∧
      (app_run { a with
        error_mgr := error_call_exec (error_log a.error_mgr c SEVERITY_FATAL x) calls }).1
        = c ∧
      (app_run { a with
        error_mgr :=
          error_call_exec (error_log a.error_mgr c SEVERITY_FATAL x) calls }).2.app_state
        = APP_STATE_ERROR := by
  have hslot := error_log_last_slot a.error_mgr c SEVERITY_FATAL x
  simp only [error_get_count] at hcount
  obtain ⟨hlog, hli⟩ : (error_call_exec (error_log a.error_mgr c SEVERITY_FATAL x) calls).log
        = (error_log a.error_mgr c SEVERITY_FATAL x).log ∧
      (error_call_exec (error_log a.error_mgr c SEVERITY_FATAL x) calls).last_index
        = (error_log a.error_mgr c SEVERITY_FATAL x).last_index := by
    rcases error_call_exec_no_log calls (error_log a.error_mgr c SEVERITY_FATAL x) hcalls
      with h0 | h1
    · exact absurd h0 hcount
    · exact h1
  have hl : error_get_last
      (error_call_exec (error_log a.error_mgr c SEVERITY_FATAL x) calls) = c := by
    simp only [error_get_last, hcount, if_false, hlog, hli, hslot]
  have hs : error_get_last_severity
      (error_call_exec (error_log a.error_mgr c SEVERITY_FATAL x) calls) = SEVERITY_FATAL := by
    simp only [error_get_last_severity, hcount, if_false, hlog, hli, hslot]
  refine ⟨?_, ?_, ?_, ?_⟩
  · simp [app_health_check, hl, hs, hc]
  · simp [app_health_check, hl, hs, hc]
  · by_cases hh : u32_inc a.heartbeat_counter % 1000 = 0 <;>
      simp [app_run, hr, gpio_driver_toggle, hh, app_health_check, hl, hs, hc]
  · by_cases hh : u32_inc a.heartbeat_counter % 1000 = 0 <;>
      simp [app_run, hr, gpio_driver_toggle, hh, app_health_check, hl, hs, hc]

theorem app_health_check_fatal_witness :
    (app_health_check { app_ctx_zero with
        app_state := APP_STATE_RUNNING,
        error_mgr := error_call_exec
          (error_log (error_log error_mgr_zero ERR_TIMEOUT SEVERITY_WARN 1)
            ERR_HW_FAILURE SEVERITY_FATAL 7)
          [error_call.op error_op.get_count, error_call.op error_op.clear_last] }).1
        = ERR_HW_FAILURE ∧
      (app_run { app_ctx_zero with
        app_state := APP_STATE_RUNNING,
        error_mgr := error_call_exec
          (error_log (error_log error_mgr_zero ERR_TIMEOUT SEVERITY_WARN 1)
            ERR_HW_FAILURE SEVERITY_FATAL 7)
          [error_call.op error_op.get_count,
            error_call.op error_op.clear_last] }).2.app_state
        = APP_STATE_ERROR :=
  have h := app_health_check_fatal
    { app_ctx_zero with
        app_state := APP_STATE_RUNNING,
        error_mgr := error_log error_mgr_zero ERR_TIMEOUT SEVERITY_WARN 1 }
    ERR_HW_FAILURE 7 [error_call.op error_op.get_count, error_call.op error_op.clear_last]
    (by decide) rfl (by decide) (by decide)
  ⟨h.1, h.2.2.2⟩

theorem error_exec_no_log (ops : List error_op) (m : error_manager_t)
    (h : ∀ op ∈ ops, op.is_log = false) :
    (error_exec m ops).log = m.log ∧ (error_exec m ops).last_index = m.last_index := by
  induction ops generalizing m with
  | nil => exact ⟨rfl, rfl⟩
  | cons op ops ih =>
    have hop := h op (List.mem_cons_self _ _)
    have hrest := ih (error_step m op).1 (fun o ho => h o (List.mem_cons_of_mem _ ho))
    simp only [error_exec]
    rw [hrest.1, hrest.2]
    cases op with
    | log c s x => simp [error_op.is_log] at hop
    | clear_last =>
      simp only [error_step, error_clear_last]
      split <;> exact ⟨rfl, rfl⟩
    | get_last => exact ⟨rfl, rfl⟩
    | get_last_severity => exact ⟨rfl, rfl⟩
    | get_count => exact ⟨rfl, rfl⟩

/-- C10: for every code `c`, context `x`, severity `s` among INFO, WARN and ERROR, and every
prior content of the error log (earlier FATAL records included): when `error_log c s x` is
the most recent log call, whatever `error_clear_last` calls and queries came after it,
`app_health_check` returns `ERR_OK` and changes nothing, so the application state stays what
it was. -/
theorem app_health_check_nonfatal (a : app_ctx) (c : error_t) (s : error_severity_t) (x : Nat)
    (ops : List error_op)
    (hs : s = SEVERITY_INFO ∨ s = SEVERITY_WARN ∨ s = SEVERITY_ERROR)
    (hops : ∀ op ∈ ops, op.is_log = false) :
    (app_health_check
        { a with error_mgr := error_exec (error_log a.error_mgr c s x) ops }).1 = ERR_OK ∧
      (app_health_check
        { a with error_mgr := error_exec (error_log a.error_mgr c s x) ops }).2
        = { a with error_mgr := error_exec (error_log a.error_mgr c s x) ops } ∧
      (app_health_check
        { a with error_mgr := error_exec (error_log a.error_mgr c s x) ops }).2.app_state
        = a.app_state := by
  obtain ⟨hlog, hli⟩ := error_exec_no_log ops (error_log a.error_mgr c s x) hops
  have hslot := error_log_last_slot a.error_mgr c s x
  have hne : s ≠ SEVERITY_FATAL := by
    rcases hs with h | h | h <;> subst h <;> decide
  have hsev : error_get_last_severity (error_exec (error_log a.error_mgr c s x) ops)
      ≠ SEVERITY_FATAL := by
    simp only [error_get_last_severity, hlog, hli, hslot]
    split
    · decide
    · exact hne
  simp only [app_health_check]
  by_cases hc : error_get_last (error_exec (error_log a.error_mgr c s x) ops) = ERR_OK <;>
    simp [hc, hsev]

theorem app_health_check_nonfatal_witness :
    (app_health_check { app_ctx_zero with
        app_state := APP_STATE_RUNNING,
        error_mgr := error_exec
          (error_log (error_log error_mgr_zero ERR_HW_FAILURE SEVERITY_FATAL 7)
            ERR_TIMEOUT SEVERITY_WARN 0)
          [error_op.get_count, error_op.clear_last] }).1 = ERR_OK ∧
      (app_health_check { app_ctx_zero with
        app_state := APP_STATE_RUNNING,
        error_mgr := error_exec
          (error_log (error_log error_mgr_zero ERR_HW_FAILURE SEVERITY_FATAL 7)
            ERR_TIMEOUT SEVERITY_WARN 0)
          [error_op.get_count, error_op.clear_last] }).2.app_state = APP_STATE_RUNNING :=
  have h := app_health_check_nonfatal
    { app_ctx_zero with
        app_state := APP_STATE_RUNNING,
        error_mgr := error_log error_mgr_zero ERR_HW_FAILURE SEVERITY_FATAL 7 }
    ERR_TIMEOUT SEVERITY_WARN 0 [error_op.get_count, error_op.clear_last]
    (Or.inr (Or.inl rfl)) (by decide)
  ⟨h.1, h.2.2⟩

/-! ## Guards of the application layer (C11, C14) -/

/-- C11: in each of the states INIT, ERROR and SHUTDOWN, for every content of the error log,
`app_run` returns `ERR_NOT_INITIALIZED` and hands back the program state it received:
application state, heartbeat counter, error log and the record of LED toggles are
unchanged. -/
theorem app_run_not_running (a : app_ctx)
    (h : a.app_state = APP_STATE_INIT ∨ a.app_state = APP_STATE_ERROR ∨
      a.app_state = APP_STATE_SHUTDOWN) :
    (app_run a).1 = ERR_NOT_INITIALIZED ∧ (app_run a).2 = a ∧
      (app_run a).2.app_state = a.app_state ∧
      (app_run a).2.heartbeat_counter = a.heartbeat_counter ∧
      (app_run a).2.error_mgr = a.error_mgr ∧
      (app_run a).2.toggle_calls = a.toggle_calls := by
  have hne : a.app_state ≠ APP_STATE_RUNNING := by
    rcases h with h | h | h <;> rw [h] <;> decide
  simp [app_run, hne]

theorem app_run_not_running_witness :
    (app_run { app_ctx_zero with
        app_state := APP_STATE_SHUTDOWN,
        heartbeat_counter := 999,
        error_mgr := error_log error_mgr_zero ERR_HW_FAILURE SEVERITY_FATAL 7 }).1
        = ERR_NOT_INITIALIZED ∧
      (app_run { app_ctx_zero with
        app_state := APP_STATE_SHUTDOWN,
        heartbeat_counter := 999,
        error_mgr := error_log error_mgr_zero ERR_HW_FAILURE SEVERITY_FATAL 7 }).2.heartbeat_counter
        = 999 :=
  have h := app_run_not_running
    { app_ctx_zero with
        app_state := APP_STATE_SHUTDOWN,
        heartbeat_counter := 999,
        error_mgr := error_log error_mgr_zero ERR_HW_FAILURE SEVERITY_FATAL 7 }
    (Or.inr (Or.inr rfl))
  ⟨h.1, h.2.2.2.1⟩

/-- C14: `app_start` returns `ERR_OK` when the state is RUNNING and `ERR_NOT_INITIALIZED` in
the states INIT, ERROR and SHUTDOWN, and in every case hands back the program state it
received (application state, heartbeat counter and error log unchanged). -/
theorem app_start_guard (a : app_ctx) :
    (a.app_state = APP_STATE_RUNNING → (app_start a).1 = ERR_OK) ∧
      (a.app_state ≠ APP_STATE_RUNNING → (app_start a).1 = ERR_NOT_INITIALIZED) ∧
      (app_start a).2 = a := by
  refine ⟨fun h => ?_, fun h => ?_, ?_⟩
  · simp [app_start, h]
  · simp [app_start, h]
  · simp only [app_start]
    split <;> rfl

theorem app_start_guard_witness :
    (app_start { app_ctx_zero with app_state := APP_STATE_RUNNING }).1 = ERR_OK ∧
      (app_start app_ctx_zero).1 = ERR_NOT_INITIALIZED ∧
      (app_start { app_ctx_zero with app_state := APP_STATE_ERROR }).1
        = ERR_NOT_INITIALIZED ∧
      (app_start { app_ctx_zero with app_state := APP_STATE_SHUTDOWN }).1
        = ERR_NOT_INITIALIZED :=
  ⟨(app_start_guard { app_ctx_zero with app_state := APP_STATE_RUNNING }).1 rfl,
   (app_start_guard app_ctx_zero).2.1 (by decide),
   (app_start_guard { app_ctx_zero with app_state := APP_STATE_ERROR }).2.1 (by decide),
   (app_start_guard { app_ctx_zero with app_state := APP_STATE_SHUTDOWN }).2.1 (by decide)⟩

/-! ## Transitions of the application state (C12, C13) -/

theorem app_health_check_ok_id (a : app_ctx) (h : (app_health_check a).1 = ERR_OK) :
    (app_health_check a).2 = a := by
  simp only [app_health_check] at h ⊢
  split at h
  · split at h
    · rename_i h1 _
      exact absurd h h1
    · simp [*]
  · simp [*]

theorem app_health_check_state (a : app_ctx) :
    (app_health_check a).2.app_state = a.app_state ∨
      (app_health_check a).2.app_state = APP_STATE_ERROR := by
  simp only [app_health_check]
  split
  · split
    · exact Or.inr rfl
    · exact Or.inl rfl
  · exact Or.inl rfl

theorem app_health_check_frame (a : app_ctx) :
    (app_health_check a).2.heartbeat_counter = a.heartbeat_counter ∧
      (app_health_check a).2.error_mgr = a.error_mgr ∧
      (app_health_check a).2.toggle_calls = a.toggle_calls := by
  simp only [app_health_check]
  split
  · split <;> exact ⟨rfl, rfl, rfl⟩
  · exact ⟨rfl, rfl, rfl⟩

theorem app_run_running (a : app_ctx) (hr : a.app_state = APP_STATE_RUNNING) :
    app_run a =
      if (app_health_check (app_run_mid a)).1 ≠ ERR_OK then
        ((app_health_check (app_run_mid a)).1,
          { (app_health_check (app_run_mid a)).2 with app_state := APP_STATE_ERROR })
      else (ERR_OK, (app_health_check (app_run_mid a)).2) := by
  by_cases hh : u32_inc a.heartbeat_counter % 1000 = 0 <;>
    simp [app_run, app_run_mid, hr, hh, gpio_driver_toggle]

theorem app_run_state (a : app_ctx) :
    (app_run a).2.app_state = a.app_state ∨ (app_run a).2.app_state = APP_STATE_ERROR := by
  by_cases hr : a.app_state = APP_STATE_RUNNING
  · rw [app_run_running a hr]
    split
    · exact Or.inr rfl
    · rename_i hok
      simp only [ne_eq, not_not] at hok
      rw [app_health_check_ok_id _ hok]
      exact Or.inl rfl
  · left
    simp [app_run, hr]

theorem app_init_state (sub0 sub1 sub2 : subsystem_init_t) (a : app_ctx) :
    (app_init sub0 sub1 sub2 a).2.app_state = APP_STATE_RUNNING ∨
      (app_init sub0 sub1 sub2 a).2.app_state = APP_STATE_ERROR := by
  simp only [app_init]
  split
  · exact Or.inr rfl
  · split
    · exact Or.inr rfl
    · split
      · exact Or.inr rfl
      · exact Or.inl rfl

/-- C12, as stated, fails: from SHUTDOWN, `app_init` (with the subsystem inits of the
repository) moves the state to RUNNING, and `app_health_check` moves it to ERROR when the
most recent error is FATAL. -/
theorem shutdown_not_terminal :
    (app_init bsp_init gpio_driver_init uart_driver_init
        { app_ctx_zero with app_state := APP_STATE_SHUTDOWN }).2.app_state
        = APP_STATE_RUNNING ∧
      (app_health_check { app_ctx_zero with
        app_state := APP_STATE_SHUTDOWN,
        error_mgr := error_log error_mgr_zero ERR_HW_FAILURE SEVERITY_FATAL 7 }).2.app_state
        = APP_STATE_ERROR := by
  decide

/-- C12, amended: once the state is SHUTDOWN, `app_start`, `app_stop` and `app_run` leave it
SHUTDOWN for every content of the error log, and so does every `app_health_check` that
returns `ERR_OK`; hence any sequence of calls without `app_init` and `app_health_check`
that starts in SHUTDOWN ends in SHUTDOWN. -/
theorem shutdown_kept (a : app_ctx) (h : a.app_state = APP_STATE_SHUTDOWN) :
    (app_start a).2.app_state = APP_STATE_SHUTDOWN ∧
      (app_stop a).2.app_state = APP_STATE_SHUTDOWN ∧
      (app_run a).2.app_state = APP_STATE_SHUTDOWN ∧
      ((app_health_check a).1 = ERR_OK →
        (app_health_check a).2.app_state = APP_STATE_SHUTDOWN) ∧
      (∀ ops : List sys_op, (∀ o ∈ ops, o ≠ sys_op.app_health_check) →
        (sys_exec a ops).app_state = APP_STATE_SHUTDOWN) := by
  have hstart : ∀ b : app_ctx, b.app_state = APP_STATE_SHUTDOWN →
      (app_start b).2.app_state = APP_STATE_SHUTDOWN := by
    intro b hb
    simp [app_start, hb]
  have hrun : ∀ b : app_ctx, b.app_state = APP_STATE_SHUTDOWN →
      (app_run b).2.app_state = APP_STATE_SHUTDOWN := by
    intro b hb
    simp [app_run, hb]
  refine ⟨hstart a h, rfl, hrun a h, fun hok => ?_, fun ops => ?_⟩
  · rw [app_health_check_ok_id a hok]
    exact h
  · induction ops generalizing a with
    | nil => intro _; exact h
    | cons o os ih =>
      intro hops
      have ho := hops o (List.mem_cons_self _ _)
      refine ih (sys_step a o) ?_ (fun o2 h2 => hops o2 (List.mem_cons_of_mem _ h2))
      cases o with
      | error_log c s x => exact h
      | error_clear_last => exact h
      | error_init => exact h
      | app_start => exact hstart a h
      | app_stop => rfl
      | app_run => exact hrun a h
      | app_health_check => exact absurd rfl ho

theorem shutdown_kept_witness :
    (app_run { app_ctx_zero with
        app_state := APP_STATE_SHUTDOWN,
        error_mgr := error_log error_mgr_zero ERR_HW_FAILURE SEVERITY_FATAL 7 }).2.app_state
        = APP_STATE_SHUTDOWN ∧
      (sys_exec { app_ctx_zero with
        app_state := APP_STATE_SHUTDOWN,
        error_mgr := error_log error_mgr_zero ERR_HW_FAILURE SEVERITY_FATAL 7 }
        [sys_op.app_run, sys_op.app_start, sys_op.error_log ERR_BUSY SEVERITY_FATAL 1,
          sys_op.app_run, sys_op.app_stop]).app_state = APP_STATE_SHUTDOWN :=
  have h := shutdown_kept
    { app_ctx_zero with
        app_state := APP_STATE_SHUTDOWN,
        error_mgr := error_log error_mgr_zero ERR_HW_FAILURE SEVERITY_FATAL 7 } rfl
  ⟨h.2.2.1, h.2.2.2.2 _ (by decide)⟩

/-- C13: from every state `app_stop` returns `ERR_OK` and sets the state to SHUTDOWN without
touching the heartbeat counter or the error log; and from a state that is not SHUTDOWN none
of `app_init` (whatever the subsystem inits do), `app_start`, `app_run` and
`app_health_check` produces SHUTDOWN. -/
theorem shutdown_only_by_stop (sub0 sub1 sub2 : subsystem_init_t) (a : app_ctx) :
    ((app_stop a).1 = ERR_OK ∧ (app_stop a).2.app_state = APP_STATE_SHUTDOWN ∧
        (app_stop a).2.heartbeat_counter = a.heartbeat_counter ∧
        (app_stop a).2.error_mgr = a.error_mgr) ∧
      (a.app_state ≠ APP_STATE_SHUTDOWN →
        (app_init sub0 sub1 sub2 a).2.app_state ≠ APP_STATE_SHUTDOWN ∧
          (app_start a).2.app_state ≠ APP_STATE_SHUTDOWN ∧
          (app_run a).2.app_state ≠ APP_STATE_SHUTDOWN ∧
          (app_health_check a).2.app_state ≠ APP_STATE_SHUTDOWN) := by
  refine ⟨⟨rfl, rfl, rfl, rfl⟩, fun h => ⟨?_, ?_, ?_, ?_⟩⟩
  · rcases app_init_state sub0 sub1 sub2 a with hi | hi <;> rw [hi] <;> decide
  · have : (app_start a).2 = a := by
      simp only [app_start]
      split <;> rfl
    rw [this]
    exact h
  · rcases app_run_state a with hi | hi <;> rw [hi]
    · exact h
    · decide
  · rcases app_health_check_state a with hi | hi <;> rw [hi]
    · exact h
    · decide

theorem shutdown_only_by_stop_witness :
    (app_stop { app_ctx_zero with app_state := APP_STATE_RUNNING }).2.app_state
        = APP_STATE_SHUTDOWN ∧
      (app_run { app_ctx_zero with
        app_state := APP_STATE_RUNNING,
        error_mgr := error_log error_mgr_zero ERR_HW_FAILURE SEVERITY_FATAL 7 }).2.app_state
        ≠ APP_STATE_SHUTDOWN :=
  ⟨(shutdown_only_by_stop bsp_init gpio_driver_init uart_driver_init
      { app_ctx_zero with app_state := APP_STATE_RUNNING }).1.2.1,
   ((shutdown_only_by_stop bsp_init gpio_driver_init uart_driver_init
      { app_ctx_zero with
        app_state := APP_STATE_RUNNING,
        error_mgr := error_log error_mgr_zero ERR_HW_FAILURE SEVERITY_FATAL 7 }).2
      (by decide)).2.2.1⟩

/-! ## The count never exceeds the capacity (C15) -/

theorem error_call_step_count (m : error_manager_t) (c : error_call) (h : m.count ≤ 32) :
    (error_call_step m c).count ≤ 32 := by
  cases c with
  | init => simp [error_call_step, error_init]
  | op o =>
    cases o with
    | log c s x =>
      simp only [error_call_step, error_step, error_log, ERROR_LOG_SIZE]
      split <;> omega
    | clear_last =>
      simp only [error_call_step, error_step, error_clear_last]
      split
      · show m.count - 1 ≤ 32
        omega
      · exact h
    | get_last => exact h
    | get_last_severity => exact h
    | get_count => exact h

theorem error_call_exec_count (calls : List error_call) (m : error_manager_t)
    (h : m.count ≤ 32) : (error_call_exec m calls).count ≤ 32 := by
  induction calls generalizing m with
  | nil => exact h
  | cons c cs ih => exact ih _ (error_call_step_count m c h)

/-- C15: `count ≤ 32` holds in the zero-initialised manager and is preserved by `error_init`,
`error_log`, `error_clear_last` and the three read-only queries; so after any sequence of
interface calls from the initial state `error_get_count` is at most 32. -/
theorem error_count_invariant :
    error_mgr_zero.count ≤ 32 ∧
      (∀ (m : error_manager_t) (c : error_call), m.count ≤ 32 →
        (error_call_step m c).count ≤ 32) ∧
      (∀ (m : error_manager_t) (c : error_t) (s : error_severity_t) (x : Nat),
        m.count ≤ 32 →
          (error_init m).count ≤ 32 ∧ (error_log m c s x).count ≤ 32 ∧
            (error_clear_last m).count ≤ 32) ∧
      (∀ calls : List error_call,
        error_get_count (error_call_exec error_mgr_zero calls) ≤ 32) := by
  have h0 : error_mgr_zero.count ≤ 32 := by decide
  refine ⟨h0, error_call_step_count, fun m c s x h => ⟨?_, ?_, ?_⟩, fun calls => ?_⟩
  · exact error_call_step_count m .init h
  · exact error_call_step_count m (.op (.log c s x)) h
  · exact error_call_step_count m (.op .clear_last) h
  · exact error_call_exec_count calls error_mgr_zero h0

theorem error_count_invariant_witness :
    (error_log (error_log_all (error_init error_mgr_zero)
        (List.replicate 32 ⟨ERR_BUSY, SEVERITY_ERROR, 5⟩)) ERR_TIMEOUT SEVERITY_WARN 1).count
      ≤ 32 :=
  ((error_count_invariant.2.2.1
    (error_log_all (error_init error_mgr_zero) (List.replicate 32 ⟨ERR_BUSY, SEVERITY_ERROR, 5⟩))
    ERR_TIMEOUT SEVERITY_WARN 1 (by decide)).2.1)

/-! ## One cycle of the main loop (C16, C18) -/

theorem app_health_check_result (a : app_ctx) :
    (error_get_last a.error_mgr ≠ ERR_OK ∧
        error_get_last_severity a.error_mgr = SEVERITY_FATAL →
      app_health_check a
        = (error_get_last a.error_mgr, { a with app_state := APP_STATE_ERROR })) ∧
      (¬ (error_get_last a.error_mgr ≠ ERR_OK ∧
          error_get_last_severity a.error_mgr = SEVERITY_FATAL) →
        app_health_check a = (ERR_OK, a)) := by
  constructor
  · rintro ⟨h1, h2⟩
    simp [app_health_check, h1, h2]
  · intro h
    simp only [app_health_check]
    by_cases h1 : error_get_last a.error_mgr = ERR_OK
    · simp [h1]
    · have h2 : error_get_last_severity a.error_mgr ≠ SEVERITY_FATAL := fun h2 => h ⟨h1, h2⟩
      simp [h1, h2]

theorem app_health_check_congr (a b : app_ctx) (h : a.error_mgr = b.error_mgr) :
    (app_health_check a).1 = (app_health_check b).1 := by
  simp only [app_health_check, h]
  split
  · split <;> rfl
  · rfl

/-- C16: in state RUNNING, `app_run` increments the heartbeat counter by one modulo `2 ^ 32`,
records exactly one LED toggle when the incremented counter is a multiple of 1000 and none
otherwise, leaves the error log alone, and returns what the health check returns: the most
recent error code, in state ERROR, when that code is not `ERR_OK` and its severity is FATAL;
`ERR_OK`, in state RUNNING, otherwise. -/
theorem app_run_cycle (a : app_ctx) (hr : a.app_state = APP_STATE_RUNNING) :
    (app_run a).2.heartbeat_counter = (a.heartbeat_counter + 1) % 2 ^ 32 ∧
      ((a.heartbeat_counter + 1) % 2 ^ 32 % 1000 = 0 →
        (app_run a).2.toggle_calls = a.toggle_calls ++ [LED_PIN]) ∧
      ((a.heartbeat_counter + 1) % 2 ^ 32 % 1000 ≠ 0 →
        (app_run a).2.toggle_calls = a.toggle_calls) ∧
      (app_run a).2.error_mgr = a.error_mgr ∧
      (app_run a).1 = (app_health_check a).1 ∧
      (error_get_last a.error_mgr ≠ ERR_OK ∧
          error_get_last_severity a.error_mgr = SEVERITY_FATAL →
        (app_run a).1 = error_get_last a.error_mgr ∧
          (app_run a).2.app_state = APP_STATE_ERROR) ∧
      (¬ (error_get_last a.error_mgr ≠ ERR_OK ∧
          error_get_last_severity a.error_mgr = SEVERITY_FATAL) →
        (app_run a).1 = ERR_OK ∧ (app_run a).2.app_state = APP_STATE_RUNNING) := by
  have hinc : u32_inc a.heartbeat_counter = (a.heartbeat_counter + 1) % 2 ^ 32 := rfl
  have hmid : (app_run_mid a).error_mgr = a.error_mgr := rfl
  have hres := app_health_check_result (app_run_mid a)
  rw [hmid] at hres
  by_cases hf : error_get_last a.error_mgr ≠ ERR_OK ∧
      error_get_last_severity a.error_mgr = SEVERITY_FATAL
  · have hrun : app_run a = (error_get_last a.error_mgr,
        { app_run_mid a with app_state := APP_STATE_ERROR }) := by
      rw [app_run_running a hr, hres.1 hf]
      simp [hf.1, app_run_mid]
    have hchk := (app_health_check_result a).1 hf
    rw [hrun, hchk, ← hinc]
    refine ⟨rfl, fun h => ?_, fun h => ?_, rfl, rfl, fun _ => ⟨rfl, rfl⟩, fun h => absurd hf h⟩
    · simp [app_run_mid, h]
    · simp [app_run_mid, h]
  · have hrun : app_run a = (ERR_OK, app_run_mid a) := by
      rw [app_run_running a hr, hres.2 hf]
      simp
    have hchk := (app_health_check_result a).2 hf
    rw [hrun, hchk, ← hinc]
    refine ⟨rfl, fun h => ?_, fun h => ?_, rfl, rfl, fun h => absurd h hf, fun _ => ⟨rfl, ?_⟩⟩
    · simp [app_run_mid, h]
    · simp [app_run_mid, h]
    · exact hr

theorem app_run_cycle_witness :
    (app_run { app_ctx_zero with
        app_state := APP_STATE_RUNNING, heartbeat_counter := 999 }).2.heartbeat_counter
        = 1000 ∧
      (app_run { app_ctx_zero with
        app_state := APP_STATE_RUNNING, heartbeat_counter := 999 }).2.toggle_calls
        = [LED_PIN] ∧
      (app_run { app_ctx_zero with
        app_state := APP_STATE_RUNNING, heartbeat_counter := 999 }).2.app_state
        = APP_STATE_RUNNING :=
  have h := app_run_cycle
    { app_ctx_zero with app_state := APP_STATE_RUNNING, heartbeat_counter := 999 } rfl
  ⟨h.1, h.2.1 (by decide), (h.2.2.2.2.2.2 (by decide)).2⟩

/-! ## Heartbeat period (C17) -/

theorem app_run_ok (a : app_ctx) (hr : a.app_state = APP_STATE_RUNNING)
    (hok : (app_health_check a).1 = ERR_OK) : app_run a = (ERR_OK, app_run_mid a) := by
  have hmid : (app_health_check (app_run_mid a)).1 = ERR_OK := by
    rw [app_health_check_congr (app_run_mid a) a rfl]
    exact hok
  rw [app_run_running a hr, app_health_check_ok_id _ hmid]
  simp [hmid]

theorem app_run_n_ok (a : app_ctx) (hr : a.app_state = APP_STATE_RUNNING)
    (h0 : a.heartbeat_counter = 0) (hok : (app_health_check a).1 = ERR_OK) (k : Nat)
    (hk : k < 2 ^ 32) :
    (app_run_n k a).app_state = APP_STATE_RUNNING ∧
      (app_run_n k a).heartbeat_counter = k ∧
      (app_run_n k a).error_mgr = a.error_mgr ∧
      (app_run_n k a).toggle_calls = a.toggle_calls ++ List.replicate (k / 1000) LED_PIN := by
  induction k with
  | zero => exact ⟨hr, h0, rfl, by simp [app_run_n]⟩
  | succ k ih =>
    obtain ⟨hs, hh, he, ht⟩ := ih (by omega)
    have hok2 : (app_health_check (app_run_n k a)).1 = ERR_OK := by
      rw [app_health_check_congr _ a he]
      exact hok
    have hinc : u32_inc k = k + 1 := by
      simp only [u32_inc, U32_MOD]
      omega
    have hstep : app_run_n (k + 1) a = app_run_mid (app_run_n k a) := by
      show (app_run (app_run_n k a)).2 = _
      rw [app_run_ok _ hs hok2]
    rw [hstep]
    refine ⟨hs, ?_, he, ?_⟩
    · show u32_inc (app_run_n k a).heartbeat_counter = k + 1
      rw [hh, hinc]
    · show (if u32_inc (app_run_n k a).heartbeat_counter % 1000 = 0
        then (app_run_n k a).toggle_calls ++ [LED_PIN] else (app_run_n k a).toggle_calls) = _
      rw [hh, hinc, ht]
      by_cases hm : (k + 1) % 1000 = 0
      · have hd : (k + 1) / 1000 = k / 1000 + 1 := by omega
        simp [hm, hd, List.replicate_succ']
      · have hd : (k + 1) / 1000 = k / 1000 := by omega
        simp [hm, hd]

/-- C17: starting in RUNNING with heartbeat counter 0 and an error log on which the health
check passes, after `n < 2 ^ 32` consecutive `app_run` calls the LED has been toggled
exactly `n / 1000` times (rounded down), and call number `k + 1` toggles it exactly when
`k + 1` is a multiple of 1000. -/
theorem heartbeat_period (a : app_ctx) (n : Nat) (hr : a.app_state = APP_STATE_RUNNING)
    (h0 : a.heartbeat_counter = 0) (hok : (app_health_check a).1 = ERR_OK)
    (hn : n < 2 ^ 32) :
    (app_run_n n a).toggle_calls = a.toggle_calls ++ List.replicate (n / 1000) LED_PIN ∧
      (app_run_n n a).toggle_calls.length = a.toggle_calls.length + n / 1000 ∧
      (∀ k, k < n →
        ((k + 1) % 1000 = 0 →
          (app_run_n (k + 1) a).toggle_calls = (app_run_n k a).toggle_calls ++ [LED_PIN]) ∧
        ((k + 1) % 1000 ≠ 0 →
          (app_run_n (k + 1) a).toggle_calls = (app_run_n k a).toggle_calls)) := by
  have hall := app_run_n_ok a hr h0 hok
  refine ⟨(hall n hn).2.2.2, ?_, fun k hk => ⟨fun hm => ?_, fun hm => ?_⟩⟩
  · rw [(hall n hn).2.2.2]
    simp
  · rw [(hall (k + 1) (by omega)).2.2.2, (hall k (by omega)).2.2.2]
    have hd : (k + 1) / 1000 = k / 1000 + 1 := by omega
    simp [hd, List.replicate_succ']
  · rw [(hall (k + 1) (by omega)).2.2.2, (hall k (by omega)).2.2.2]
    have hd : (k + 1) / 1000 = k / 1000 := by omega
    rw [hd]

theorem heartbeat_period_witness :
    (app_run_n 2500 { app_ctx_zero with app_state := APP_STATE_RUNNING }).toggle_calls
      = [LED_PIN, LED_PIN] :=
  (heartbeat_period { app_ctx_zero with app_state := APP_STATE_RUNNING } 2500 rfl rfl
    (by decide) (by decide)).1

/-! ## Heartbeat counter against the returned code (C18) -/

/-- C18, as stated, fails: in RUNNING with a FATAL most recent error, `app_run` returns that
error, not `ERR_OK`, and has incremented the heartbeat counter from 0 to 1 all the same. -/
theorem heartbeat_incremented_on_failure :
    (app_run { app_ctx_zero with
        app_state := APP_STATE_RUNNING,
        error_mgr := error_log error_mgr_zero ERR_HW_FAILURE SEVERITY_FATAL 7 }).1
        = ERR_HW_FAILURE ∧
      (app_run { app_ctx_zero with
        app_state := APP_STATE_RUNNING,
        error_mgr := error_log error_mgr_zero ERR_HW_FAILURE SEVERITY_FATAL 7 }).2.heartbeat_counter
        = 1 := by
  decide

/-- C18, amended: an `app_run` call increments the heartbeat counter (by one, modulo
`2 ^ 32`) if and only if the state is RUNNING when it is called; every call that returns
`ERR_OK` has incremented it, and a call in any other state leaves it unchanged. -/
theorem heartbeat_incremented_iff_running (a : app_ctx) :
    ((app_run a).2.heartbeat_counter = (a.heartbeat_counter + 1) % 2 ^ 32 ↔
        a.app_state = APP_STATE_RUNNING) ∧
      ((app_run a).1 = ERR_OK →
        (app_run a).2.heartbeat_counter = (a.heartbeat_counter + 1) % 2 ^ 32) ∧
      (a.app_state ≠ APP_STATE_RUNNING →
        (app_run a).2.heartbeat_counter = a.heartbeat_counter) := by
  have hne : a.heartbeat_counter ≠ (a.heartbeat_counter + 1) % 2 ^ 32 := by omega
  have hrun : a.app_state = APP_STATE_RUNNING →
      (app_run a).2.heartbeat_counter = (a.heartbeat_counter + 1) % 2 ^ 32 := by
    intro hr
    rw [app_run_running a hr]
    split
    · exact (app_health_check_frame (app_run_mid a)).1
    · exact (app_health_check_frame (app_run_mid a)).1
  have hnot : a.app_state ≠ APP_STATE_RUNNING → app_run a = (ERR_NOT_INITIALIZED, a) := by
    intro hr
    simp [app_run, hr]
  refine ⟨⟨fun h => ?_, hrun⟩, fun h => ?_, fun h => ?_⟩
  · by_contra hr
    rw [hnot hr] at h
    exact hne h
  · by_cases hr : a.app_state = APP_STATE_RUNNING
    · exact hrun hr
    · rw [hnot hr] at h
      simp at h
  · rw [hnot h]

theorem heartbeat_incremented_iff_running_witness :
    (app_run { app_ctx_zero with app_state := APP_STATE_RUNNING }).2.heartbeat_counter = 1 ∧
      (app_run app_ctx_zero).2.heartbeat_counter = 0 :=
  ⟨(heartbeat_incremented_iff_running
      { app_ctx_zero with app_state := APP_STATE_RUNNING }).2.1 (by decide),
   (heartbeat_incremented_iff_running app_ctx_zero).2.2 (by decide)⟩

/-! ## No way back to RUNNING without `app_init` (C19) -/

theorem sys_step_not_running (a : app_ctx) (o : sys_op)
    (h : a.app_state ≠ APP_STATE_RUNNING) : (sys_step a o).app_state ≠ APP_STATE_RUNNING := by
  cases o with
  | error_log c s x => exact h
  | error_clear_last => exact h
  | error_init => exact h
  | app_start =>
    simp only [sys_step, app_start]
    split <;> exact h
  | app_stop => simp [sys_step, app_stop]
  | app_run => simp [sys_step, app_run, h]
  | app_health_check =>
    rcases app_health_check_state a with hs | hs <;> simp only [sys_step, hs]
    · exact h
    · decide

/-- C19: in every sequence of `error_log`, `error_clear_last`, `error_init`, `app_start`,
`app_stop`, `app_run` and `app_health_check` calls (no `app_init`), a state that is not
RUNNING (ERROR or SHUTDOWN after RUNNING was left) never becomes RUNNING again, so every
later `app_run` returns `ERR_NOT_INITIALIZED`. -/
theorem not_running_is_final (a : app_ctx) (ops : List sys_op)
    (h : a.app_state ≠ APP_STATE_RUNNING) :
    (sys_exec a ops).app_state ≠ APP_STATE_RUNNING ∧
      (app_run (sys_exec a ops)).1 = ERR_NOT_INITIALIZED := by
  have hstate : (sys_exec a ops).app_state ≠ APP_STATE_RUNNING := by
    induction ops generalizing a with
    | nil => exact h
    | cons o os ih => exact ih (sys_step a o) (sys_step_not_running a o h)
  exact ⟨hstate, by simp [app_run, hstate]⟩

theorem not_running_is_final_witness :
    (app_run (sys_exec
        (app_run { app_ctx_zero with
          app_state := APP_STATE_RUNNING,
          error_mgr := error_log error_mgr_zero ERR_HW_FAILURE SEVERITY_FATAL 7 }).2
        [sys_op.error_init, sys_op.app_start, sys_op.app_health_check, sys_op.app_run])).1
      = ERR_NOT_INITIALIZED :=
  (not_running_is_final
    (app_run { app_ctx_zero with
      app_state := APP_STATE_RUNNING,
      error_mgr := error_log error_mgr_zero ERR_HW_FAILURE SEVERITY_FATAL 7 }).2
    [sys_op.error_init, sys_op.app_start, sys_op.app_health_check, sys_op.app_run]
    (by decide)).2

/-! ## Footprint of `error_log` (C20) -/

/-- C20: with write index `w`, `error_log c s x` sets slot `w % 32` to code `c`, severity `s`
and context `x`, leaves the other 31 slots unchanged, sets the write index to
`(w + 1) % 2 ^ 32`, and increments the count by one when it was below 32 and leaves it
unchanged otherwise. -/
theorem error_log_frame (m : error_manager_t) (c : error_t) (s : error_severity_t) (x : Nat) :
    (slot_of m.last_index).val = m.last_index % 32 ∧
      ((error_log m c s x).log (slot_of m.last_index)).error_code = c ∧
      ((error_log m c s x).log (slot_of m.last_index)).severity = s ∧
      ((error_log m c s x).log (slot_of m.last_index)).context = x ∧
      (∀ i : Fin 32, i.val ≠ m.last_index % 32 → (error_log m c s x).log i = m.log i) ∧
      (error_log m c s x).last_index = (m.last_index + 1) % 2 ^ 32 ∧
      (m.count < 32 → (error_log m c s x).count = m.count + 1) ∧
      (¬ m.count < 32 → (error_log m c s x).count = m.count) := by
  refine ⟨rfl, ?_, ?_, ?_, fun i hi => ?_, rfl, fun h => ?_, fun h => ?_⟩
  · simp [error_log]
  · simp [error_log]
  · simp [error_log]
  · have hne : i ≠ slot_of m.last_index := by
      intro he
      exact hi (by rw [he]; rfl)
    simp [error_log, Function.update_noteq hne]
  · simp [error_log, ERROR_LOG_SIZE, h]
  · simp [error_log, ERROR_LOG_SIZE, h]

theorem error_log_frame_witness :
    (error_log (error_log_all (error_init error_mgr_zero)
        (List.replicate 32 ⟨ERR_BUSY, SEVERITY_ERROR, 5⟩)) ERR_TIMEOUT SEVERITY_WARN 1).count
        = 32 ∧
      (error_log (error_init error_mgr_zero) ERR_TIMEOUT SEVERITY_WARN 1).count = 1 ∧
      (error_log (error_init error_mgr_zero) ERR_TIMEOUT SEVERITY_WARN 1).log 5
        = error_mgr_zero.log 5 :=
  ⟨(error_log_frame (error_log_all (error_init error_mgr_zero)
      (List.replicate 32 ⟨ERR_BUSY, SEVERITY_ERROR, 5⟩)) ERR_TIMEOUT SEVERITY_WARN 1).2.2.2.2.2.2.2
      (by decide),
   (error_log_frame (error_init error_mgr_zero) ERR_TIMEOUT SEVERITY_WARN 1).2.2.2.2.2.2.1
      (by decide),
   (error_log_frame (error_init error_mgr_zero) ERR_TIMEOUT SEVERITY_WARN 1).2.2.2.2.1 5
      (by decide)⟩

/-! ## Timestamp of a logged record (C21) -/

/-- C21 does not hold of the code: `error_log` has no access to a system tick and writes the
constant 0 into the timestamp field of the slot it fills, whatever the state and the
arguments. -/
theorem error_log_timestamp_zero (m : error_manager_t) (c : error_t) (s : error_severity_t)
    (x : Nat) : ((error_log m c s x).log (slot_of m.last_index)).timestamp = 0 := by
  simp [error_log]

/-! ## HAL calls without a handler (C22) -/

/-- C22: a HAL call whose dispatch table is absent, or whose entry in the table is absent,
changes nothing (tables, hardware and error log are what they were, so no backend ran and no
error was logged) and returns the default: nothing for `gpio_configure`, `gpio_write` and
`gpio_toggle`, `false` for `gpio_read`, `uart_is_tx_complete` and `uart_is_rx_available`,
and `ERR_NOT_INITIALIZED` for the six other UART calls. -/
theorem hal_absent_is_noop {HW : Type} (c : hal_ctx HW) (pin : Nat) (value : Bool)
    (mode : gpio_mode_t) (otype : gpio_output_type_t) (pull : gpio_pull_t)
    (speed : gpio_speed_t) (uart_id : uart_id_t) (config : Option uart_config_t)
    (data : Option (List Nat)) (length : Nat) :
    ((c.gpio_hal.bind fun h => h.init) = none →
        gpio_configure c pin mode otype pull speed = c) ∧
      ((c.gpio_hal.bind fun h => h.write) = none → gpio_write c pin value = c) ∧
      ((c.gpio_hal.bind fun h => h.toggle) = none → gpio_toggle c pin = c) ∧
      ((c.gpio_hal.bind fun h => h.read) = none → gpio_read c pin = (false, c)) ∧
      ((c.uart_hal.bind fun h => h.is_tx_complete) = none →
        uart_is_tx_complete c uart_id = (false, c)) ∧
      ((c.uart_hal.bind fun h => h.is_rx_available) = none →
        uart_is_rx_available c uart_id = (false, c)) ∧
      ((c.uart_hal.bind fun h => h.init) = none →
        uart_configure c uart_id config = (ERR_NOT_INITIALIZED, c)) ∧
      ((c.uart_hal.bind fun h => h.deinit) = none →
        uart_deinit c uart_id = (ERR_NOT_INITIALIZED, c)) ∧
      ((c.uart_hal.bind fun h => h.transmit) = none →
        uart_transmit c uart_id data length = (ERR_NOT_INITIALIZED, c)) ∧
      ((c.uart_hal.bind fun h => h.receive) = none →
        uart_receive c uart_id data length = (ERR_NOT_INITIALIZED, data, c)) ∧
      ((c.uart_hal.bind fun h => h.transmit_it) = none →
        uart_transmit_it c uart_id data length = (ERR_NOT_INITIALIZED, c)) ∧
      ((c.uart_hal.bind fun h => h.receive_it) = none →
        uart_receive_it c uart_id data length = (ERR_NOT_INITIALIZED, data, c)) := by
  refine ⟨?_, ?_, ?_, ?_, ?_, ?_, ?_, ?_, ?_, ?_, ?_, ?_⟩
  · intro h
    unfold gpio_configure
    cases hg : c.gpio_hal with
    | none => rfl
    | some t => simp only [hg, Option.bind] at h; simp only [h]
  · intro h
    unfold gpio_write
    cases hg : c.gpio_hal with
    | none => rfl
    | some t => simp only [hg, Option.bind] at h; simp only [h]
  · intro h
    unfold gpio_toggle
    cases hg : c.gpio_hal with
    | none => rfl
    | some t => simp only [hg, Option.bind] at h; simp only [h]
  · intro h
    unfold gpio_read
    cases hg : c.gpio_hal with
    | none => rfl
    | some t => simp only [hg, Option.bind] at h; simp only [h]
  · intro h
    unfold uart_is_tx_complete
    cases hg : c.uart_hal with
    | none => rfl
    | some t => simp only [hg, Option.bind] at h; simp only [h]
  · intro h
    unfold uart_is_rx_available
    cases hg : c.uart_hal with
    | none => rfl
    | some t => simp only [hg, Option.bind] at h; simp only [h]
  · intro h
    unfold uart_configure
    cases hg : c.uart_hal with
    | none => rfl
    | some t => simp only [hg, Option.bind] at h; simp only [h]
  · intro h
    unfold uart_deinit
    cases hg : c.uart_hal with
    | none => rfl
    | some t => simp only [hg, Option.bind] at h; simp only [h]
  · intro h
    unfold uart_transmit
    cases hg : c.uart_hal with
    | none => rfl
    | some t => simp only [hg, Option.bind] at h; simp only [h]
  · intro h
    unfold uart_receive
    cases hg : c.uart_hal with
    | none => rfl
    | some t => simp only [hg, Option.bind] at h; simp only [h]
  · intro h
    unfold uart_transmit_it
    cases hg : c.uart_hal with
    | none => rfl
    | some t => simp only [hg, Option.bind] at h; simp only [h]
  · intro h
    unfold uart_receive_it
    cases hg : c.uart_hal with
    | none => rfl
    | some t => simp only [hg, Option.bind] at h; simp only [h]

theorem hal_absent_is_noop_witness :
    (gpio_read (hal_ctx_zero 0) 3 = (false, hal_ctx_zero 0) ∧
        uart_transmit (hal_ctx_zero 0) uart_id_t.UART_1 (some [104, 105]) 2
          = (ERR_NOT_INITIALIZED, hal_ctx_zero 0)) ∧
      (gpio_write hal_ctx_counting 0 true = hal_ctx_counting ∧
        uart_receive hal_ctx_counting uart_id_t.UART_2 (some [0, 0]) 2
          = (ERR_NOT_INITIALIZED, some [0, 0], hal_ctx_counting)) ∧
      (gpio_toggle hal_ctx_counting 0).world.hw = 1 :=
  ⟨⟨(hal_absent_is_noop (hal_ctx_zero 0) 3 true gpio_mode_t.GPIO_MODE_OUTPUT
        gpio_output_type_t.GPIO_OUTPUT_PP gpio_pull_t.GPIO_PULL_NONE
        gpio_speed_t.GPIO_SPEED_HIGH uart_id_t.UART_1 none (some [104, 105]) 2).2.2.2.1 rfl,
      (hal_absent_is_noop (hal_ctx_zero 0) 3 true gpio_mode_t.GPIO_MODE_OUTPUT
        gpio_output_type_t.GPIO_OUTPUT_PP gpio_pull_t.GPIO_PULL_NONE
        gpio_speed_t.GPIO_SPEED_HIGH uart_id_t.UART_1 none
        (some [104, 105]) 2).2.2.2.2.2.2.2.2.1 rfl⟩,
    ⟨(hal_absent_is_noop hal_ctx_counting 0 true gpio_mode_t.GPIO_MODE_OUTPUT
        gpio_output_type_t.GPIO_OUTPUT_PP gpio_pull_t.GPIO_PULL_NONE
        gpio_speed_t.GPIO_SPEED_HIGH uart_id_t.UART_2 none (some [0, 0]) 2).2.1 rfl,
      (hal_absent_is_noop hal_ctx_counting 0 true gpio_mode_t.GPIO_MODE_OUTPUT
        gpio_output_type_t.GPIO_OUTPUT_PP gpio_pull_t.GPIO_PULL_NONE
        gpio_speed_t.GPIO_SPEED_HIGH uart_id_t.UART_2 none
        (some [0, 0]) 2).2.2.2.2.2.2.2.2.2.1 rfl⟩,
    rfl⟩

/-! ## Validation in the driver wrappers (C23) -/

theorem stm32_uart_transmit_ok {HW : Type} (c : hal_ctx HW) (uart_id : uart_id_t)
    (data : Option (List Nat)) (length : Nat)
    (h : c.uart_hal = none ∨ c.uart_hal = some stm32_uart_hal) :
    (uart_transmit c uart_id data length).1 ≠ ERR_INVALID_PARAM := by
  rcases h with h | h <;> simp [uart_transmit, h, stm32_uart_hal]

theorem stm32_uart_receive_ok {HW : Type} (c : hal_ctx HW) (uart_id : uart_id_t)
    (data : Option (List Nat)) (length : Nat)
    (h : c.uart_hal = none ∨ c.uart_hal = some stm32_uart_hal) :
    (uart_receive c uart_id data length).1 ≠ ERR_INVALID_PARAM := by
  rcases h with h | h <;> simp [uart_receive, h, stm32_uart_hal]

/-- C23: `uart_driver_write` and `uart_driver_read` return `ERR_INVALID_PARAM` and leave
everything untouched (whatever handlers are installed, so the HAL was not called) when the
data pointer is `NULL` or the length is 0, and otherwise are exactly `uart_transmit` and
`uart_receive`; `uart_driver_write_string` does the same for a `NULL` string and otherwise is
`uart_transmit` of the string with its `strlen` cast to `uint16_t`; `gpio_driver_read`
returns `ERR_INVALID_PARAM` exactly when the output pointer is `NULL` and otherwise stores
`gpio_read(pin)` and returns `ERR_OK`. With the UART table as the repository leaves it
(`NULL` or `stm32_uart_hal`) the three UART wrappers return `ERR_INVALID_PARAM` exactly in
the rejected cases. -/
theorem driver_wrappers_validate {HW : Type} (c : hal_ctx HW) (uart_id : uart_id_t)
    (data : Option (List Nat)) (length : Nat) (str : Option (List Nat)) (pin : Nat)
    (value : Option Bool) :
    (data = none ∨ length = 0 →
        uart_driver_write c uart_id data length = (ERR_INVALID_PARAM, c) ∧
          uart_driver_read c uart_id data length = (ERR_INVALID_PARAM, data, c)) ∧
      (¬ (data = none ∨ length = 0) →
        uart_driver_write c uart_id data length = uart_transmit c uart_id data length ∧
          uart_driver_read c uart_id data length = uart_receive c uart_id data length) ∧
      (str = none → uart_driver_write_string c uart_id str = (ERR_INVALID_PARAM, c)) ∧
      (∀ chars, str = some chars →
        uart_driver_write_string c uart_id str
          = uart_transmit c uart_id (some chars) (chars.length % 65536)) ∧
      (value = none → gpio_driver_read c pin value = (ERR_INVALID_PARAM, none, c)) ∧
      (value ≠ none →
        gpio_driver_read c pin value
          = (ERR_OK, some (gpio_read c pin).1, (gpio_read c pin).2)) ∧
      ((gpio_driver_read c pin value).1 = ERR_INVALID_PARAM ↔ value = none) ∧
      (c.uart_hal = none ∨ c.uart_hal = some stm32_uart_hal →
        ((uart_driver_write c uart_id data length).1 = ERR_INVALID_PARAM ↔
            data = none ∨ length = 0) ∧
          ((uart_driver_read c uart_id data length).1 = ERR_INVALID_PARAM ↔
            data = none ∨ length = 0) ∧
          ((uart_driver_write_string c uart_id str).1 = ERR_INVALID_PARAM ↔ str = none)) := by
  refine ⟨fun h => ?_, fun h => ?_, fun h => ?_, fun chars h => ?_, fun h => ?_, fun h => ?_,
    ?_, fun hrepo => ⟨?_, ?_, ?_⟩⟩
  · simp [uart_driver_write, uart_driver_read, h]
  · simp [uart_driver_write, uart_driver_read, h]
  · subst h
    rfl
  · subst h
    rfl
  · subst h
    rfl
  · cases value with
    | none => exact absurd rfl h
    | some b => rfl
  · cases value with
    | none => simp [gpio_driver_read]
    | some b => simp [gpio_driver_read]
  · by_cases hv : data = none ∨ length = 0
    · simp [uart_driver_write, hv]
    · have := stm32_uart_transmit_ok c uart_id data length hrepo
      simp [uart_driver_write, hv, this]
  · by_cases hv : data = none ∨ length = 0
    · simp [uart_driver_read, hv]
    · have := stm32_uart_receive_ok c uart_id data length hrepo
      simp [uart_driver_read, hv, this]
  · cases str with
    | none => simp [uart_driver_write_string]
    | some chars =>
      have := stm32_uart_transmit_ok c uart_id (some chars) (chars.length % 65536) hrepo
      simp [uart_driver_write_string, this]

theorem driver_wrappers_validate_witness :
    (uart_driver_write hal_ctx_counting uart_id_t.UART_1 (some [104, 105]) 0
        = (ERR_INVALID_PARAM, hal_ctx_counting) ∧
      (uart_driver_write hal_ctx_counting uart_id_t.UART_1 (some [104, 105]) 2).2.world.hw
        = 1) ∧
      (uart_driver_write_string (uart_hal_init hal_build.unset (hal_ctx_zero 0))
        uart_id_t.UART_1 (some [])).1 = ERR_OK ∧
      ((uart_driver_write (hal_ctx_zero 0) uart_id_t.UART_1 none 2).1 = ERR_INVALID_PARAM ↔
        (none : Option (List Nat)) = none ∨ 2 = 0) ∧
      gpio_driver_read (gpio_hal_init hal_build.unset (hal_ctx_zero 0)) 4 (some true)
        = (ERR_OK, some false, gpio_hal_init hal_build.unset (hal_ctx_zero 0)) :=
  ⟨⟨(driver_wrappers_validate hal_ctx_counting uart_id_t.UART_1 (some [104, 105]) 0 none 0
        none).1 (Or.inr rfl) |>.1,
      congrArg (fun r => r.2.world.hw)
        ((driver_wrappers_validate hal_ctx_counting uart_id_t.UART_1 (some [104, 105]) 2 none 0
          none).2.1 (by decide)).1⟩,
    congrArg Prod.fst
      ((driver_wrappers_validate (uart_hal_init hal_build.unset (hal_ctx_zero 0))
        uart_id_t.UART_1 none 0 (some []) 0 none).2.2.2.1 [] rfl),
    ((driver_wrappers_validate (hal_ctx_zero 0) uart_id_t.UART_1 none 2 none 0
      none).2.2.2.2.2.2.2 (Or.inl rfl)).1,
    (driver_wrappers_validate (gpio_hal_init hal_build.unset (hal_ctx_zero 0))
      uart_id_t.UART_1 none 0 none 4 (some true)).2.2.2.2.2.1 (by decide)⟩

/-! ## A failing cycle ends the main loop (C24) -/

theorem app_run_fail_state (a : app_ctx) (h : (app_run a).1 ≠ ERR_OK) :
    (app_run a).2.app_state ≠ APP_STATE_RUNNING ∧
      ((a.app_state = APP_STATE_RUNNING ∧ (app_run a).2.app_state = APP_STATE_ERROR) ∨
        (a.app_state ≠ APP_STATE_RUNNING ∧ (app_run a).2 = a)) := by
  by_cases hr : a.app_state = APP_STATE_RUNNING
  · rw [app_run_running a hr] at h ⊢
    split at h
    · rename_i hne
      rw [if_pos hne]
      exact ⟨by simp, Or.inl ⟨hr, rfl⟩⟩
    · exact absurd rfl h
  · have hrun : app_run a = (ERR_NOT_INITIALIZED, a) := by simp [app_run, hr]
    rw [hrun]
    exact ⟨hr, Or.inr ⟨hr, rfl⟩⟩

theorem main_loop_not_running (n : Nat) (a : app_ctx)
    (h : a.app_state ≠ APP_STATE_RUNNING) : main_loop n a = (a, 0) := by
  cases n with
  | zero => rfl
  | succ n => simp [main_loop, app_get_state, h]

theorem main_loop_body_taken (a : app_ctx) (h : (main_loop_body a).2 = true) :
    (app_run a).1 ≠ ERR_OK ∧
      (main_loop_body a).1.app_state = (app_run a).2.app_state := by
  simp only [main_loop_body] at h ⊢
  split at h
  · rename_i hne
    rw [if_pos hne]
    exact ⟨hne, rfl⟩
  · simp at h

theorem main_loop_warn_le_one (n : Nat) (a : app_ctx) : (main_loop n a).2 ≤ 1 := by
  induction n generalizing a with
  | zero => simp [main_loop]
  | succ n ih =>
    by_cases hr : app_get_state a = APP_STATE_RUNNING
    · simp only [main_loop, hr, if_true]
      by_cases hb : (main_loop_body a).2 = true
      · obtain ⟨hne, hst⟩ := main_loop_body_taken a hb
        have hexit : (main_loop_body a).1.app_state ≠ APP_STATE_RUNNING := by
          rw [hst]
          exact (app_run_fail_state a hne).1
        rw [main_loop_not_running n _ hexit]
        simp [hb]
      · have := ih (main_loop_body a).1
        simp only [hb]
        simpa using this
    · simp [main_loop, hr]

/-- C24: whenever `app_run` returns a code other than `ERR_OK`, the state after the call is
not RUNNING (ERROR when the call started in RUNNING, the unchanged state otherwise); hence in
the loop of `main`, however many passes are made, the branch that logs at WARN is taken at
most once, and a pass that takes it leaves a state in which the loop guard fails, so the loop
makes no further pass. -/
theorem main_loop_warns_once (a : app_ctx) (n : Nat) :
    ((app_run a).1 ≠ ERR_OK →
        (app_run a).2.app_state ≠ APP_STATE_RUNNING ∧
          ((a.app_state = APP_STATE_RUNNING ∧
              (app_run a).2.app_state = APP_STATE_ERROR) ∨
            (a.app_state ≠ APP_STATE_RUNNING ∧ (app_run a).2 = a))) ∧
      (main_loop n a).2 ≤ 1 ∧
      ((main_loop_body a).2 = true →
        app_get_state (main_loop_body a).1 ≠ APP_STATE_RUNNING ∧
          main_loop n (main_loop_body a).1 = ((main_loop_body a).1, 0)) := by
  refine ⟨app_run_fail_state a, main_loop_warn_le_one n a, fun hb => ?_⟩
  obtain ⟨hne, hst⟩ := main_loop_body_taken a hb
  have hexit : (main_loop_body a).1.app_state ≠ APP_STATE_RUNNING := by
    rw [hst]
    exact (app_run_fail_state a hne).1
  exact ⟨hexit, main_loop_not_running n _ hexit⟩

theorem main_loop_warns_once_witness :
    (app_run { app_ctx_zero with
        app_state := APP_STATE_RUNNING,
        error_mgr := error_log error_mgr_zero ERR_HW_FAILURE SEVERITY_FATAL 7 }).2.app_state
        ≠ APP_STATE_RUNNING ∧
      (main_loop 5 { app_ctx_zero with
        app_state := APP_STATE_RUNNING,
        error_mgr := error_log error_mgr_zero ERR_HW_FAILURE SEVERITY_FATAL 7 }).2 = 1 ∧
      app_get_state (main_loop_body { app_ctx_zero with
        app_state := APP_STATE_RUNNING,
        error_mgr := error_log error_mgr_zero ERR_HW_FAILURE SEVERITY_FATAL 7 }).1
        ≠ APP_STATE_RUNNING :=
  have h := main_loop_warns_once
    { app_ctx_zero with
        app_state := APP_STATE_RUNNING,
        error_mgr := error_log error_mgr_zero ERR_HW_FAILURE SEVERITY_FATAL 7 } 5
  ⟨(h.1 (by decide)).1, by decide, (h.2.2 (by decide)).1⟩

end EmbeddedPattern
